import Mathlib

/-!
# go-db: row decoder and upsert builder (`src/pq/pq.go`)

A shallow embedding of `Postgres.Row`, `Postgres.Query`,
`Postgres.InsertOrUpdateStruct`, `getFieldValueByJSONTag` and
`countNotNilFields`, together with the part of Go's `reflect` package these
functions go through.

Modelling conventions

* A Go value is a `GoValue`.  A value carries the static type information the
  code asks for: a nil pointer and a slice carry their element type, a variable
  or field of interface type is an `iface` box around its dynamic value.
  `GoValue.nil` is the nil interface, and also the zero `reflect.Value`.
* Struct fields carry their Go name and the value of their `json` tag
  (`field.Tag.Get("json")`).  Field names of one struct are distinct, so
  `val.FieldByName(typ.Field(i).Name)` is field `i`.  All fields are exported
  (`reflect.Value.Interface` is only defined on those); embedded fields are
  ordinary struct-typed fields.
* Maps, channels, functions, floating point numbers and defined non-struct
  types are outside the value universe.  The elements of a slice are never
  looked at by the code, so a slice keeps its element type and its length
  (`none` for the nil slice).
* A function that can return a Go `error` or panic returns an `Outcome`.
* The store behind `p.db` is a pair of functions; every run records the
  statements it handed to the store.
* `int` is taken to be 64 bits wide, so that the conversion `int(id)` of line
  272 is the identity on `int64`.
-/

set_option autoImplicit false

namespace GoDb

/-! ## Go types and values -/

mutual
/-- Go types, as far as the code inspects them. -/
inductive GoType where
  | bool
  | int
  | int64
  | string
  | iface
  | ptr (elem : GoType)
  | slice (elem : GoType)
  | struct (name : String) (fields : FieldTypes)
  deriving DecidableEq
/-- Declared fields of a struct type: Go name, `json` tag, type. -/
inductive FieldTypes where
  | nil
  | cons (name : String) (tag : String) (type : GoType) (rest : FieldTypes)
  deriving DecidableEq
end

mutual
/-- Go values. -/
inductive GoValue where
  | nil
  | bool (b : Bool)
  | int (n : Int)
  | int64 (n : Int)
  | string (s : String)
  | iface (v : GoValue)
  | nilPtr (elem : GoType)
  | ptr (addr : Nat) (v : GoValue)
  | slice (elem : GoType) (len : Option Nat)
  | struct (name : String) (fields : FieldValues)
  deriving DecidableEq
/-- Fields of a struct value, in declared order: Go name, `json` tag, value. -/
inductive FieldValues where
  | nil
  | cons (name : String) (tag : String) (v : GoValue) (rest : FieldValues)
  deriving DecidableEq
end

/-- One declared field of a struct value (`typ.Field(i)` with `val.Field(i)`). -/
structure Field where
  name : String
  tag : String
  value : GoValue
  deriving DecidableEq

/-- The fields of a struct value as a list, in declared order. -/
def FieldValues.toList : FieldValues → List Field
  | .nil => []
  | .cons name tag v rest => ⟨name, tag, v⟩ :: rest.toList

/-- The field types of a struct type as a list, in declared order. -/
def FieldTypes.toList : FieldTypes → List GoType
  | .nil => []
  | .cons _ _ t rest => t :: rest.toList

/-- Result of a Go call that may return an `error` or panic. -/
inductive Outcome (α : Type) where
  | ok (a : α)
  | error (msg : String)
  | panic (msg : String)
  deriving DecidableEq

/-! ## The part of `reflect` the code uses -/

/-- The kinds of `reflect.Kind` that occur. -/
inductive Kind where
  | Invalid | Bool | Int | Int64 | String | Interface | Ptr | Slice | Struct
  deriving DecidableEq

/-- `reflect.ValueOf(x)`: an `any` argument holds the dynamic value; the nil
interface gives the zero `Value`. -/
def ValueOf : GoValue → GoValue
  | .iface v => v
  | v => v

/-- `Value.Kind()`. -/
def GoValue.Kind : GoValue → Kind
  | .nil => .Invalid
  | .bool _ => .Bool
  | .int _ => .Int
  | .int64 _ => .Int64
  | .string _ => .String
  | .iface _ => .Interface
  | .nilPtr _ => .Ptr
  | .ptr _ _ => .Ptr
  | .slice _ _ => .Slice
  | .struct _ _ => .Struct

/-- `Value.Elem()`: the pointee of a pointer (the zero `Value` for a nil
pointer), the content of an interface; panics on every other kind. -/
def GoValue.Elem : GoValue → Outcome GoValue
  | .ptr _ v => .ok v
  | .nilPtr _ => .ok .nil
  | .iface v => .ok v
  | _ => .panic "reflect: call of reflect.Value.Elem on non-pointer Value"

/-- `Value.Interface()`: the value as an `any`; panics on the zero `Value`. -/
def GoValue.Interface : GoValue → Outcome GoValue
  | .nil => .panic "reflect: call of reflect.Value.Interface on zero Value"
  | .iface v => .ok v
  | v => .ok v

/-- `Value.Interface()` on a struct field, which is never the zero `Value`. -/
def Field.Interface (f : Field) : GoValue :=
  ValueOf f.value

/-- `Value.IsNil()`: defined on pointers, slices and interfaces; panics on
every other kind. -/
def GoValue.IsNil : GoValue → Outcome Bool
  | .nilPtr _ => .ok true
  | .ptr _ _ => .ok false
  | .slice _ none => .ok true
  | .slice _ (some _) => .ok false
  | .iface .nil => .ok true
  | .iface _ => .ok false
  | _ => .panic "reflect: call of reflect.Value.IsNil on non-nillable Value"

/-- The test `kind == reflect.Ptr && valueField.IsNil()` of line 219. -/
def GoValue.isNilPtr : GoValue → Bool
  | .nilPtr _ => true
  | _ => false

mutual
/-- `Value.Type()`, recovered from the value. -/
def GoValue.typeOf : GoValue → GoType
  | .nil => .iface
  | .bool _ => .bool
  | .int _ => .int
  | .int64 _ => .int64
  | .string _ => .string
  | .iface _ => .iface
  | .nilPtr t => .ptr t
  | .ptr _ v => .ptr v.typeOf
  | .slice t _ => .slice t
  | .struct name fs => .struct name fs.typesOf
/-- The declared field types of a struct value. -/
def FieldValues.typesOf : FieldValues → FieldTypes
  | .nil => .nil
  | .cons name tag v rest => .cons name tag v.typeOf rest.typesOf
end

/-- `Type.Name()`: the name of a named type, empty for pointer, slice and
`interface{}` types. -/
def GoType.Name : GoType → String
  | .bool => "bool"
  | .int => "int"
  | .int64 => "int64"
  | .string => "string"
  | .iface => ""
  | .ptr _ => ""
  | .slice _ => ""
  | .struct name _ => name

/-! ## Strings -/

/-- `s[:len(s)-1]`.  Every string the code slices this way ends in one of the
single-byte characters `(` and `,`, so dropping the last byte drops the last
character. -/
def dropLastByte (s : String) : String :=
  ⟨s.data.dropLast⟩

/-- `strings.Split(tag, ",")[0]`: the text before the first comma. -/
def columnNameOf (tag : String) : String :=
  ⟨tag.data.takeWhile (fun c => c != ',')⟩

/-- `fmt.Sprintf("%d", n)` for a non-negative `n`. -/
def fmtInt (n : Nat) : String :=
  toString n

/-! ## The store -/

/-- An `sql.Result`: what `LastInsertId()` returns (identifier and error) and
the affected row count. -/
structure SqlResult where
  lastInsertId : Int
  lastInsertIdErr : Option String
  rowsAffected : Int
  deriving DecidableEq

/-- A value handed over by the driver (`driver.Value`). -/
inductive DriverValue where
  | null
  | int64 (n : Int)
  | float64 (bits : Nat)
  | bool (b : Bool)
  | bytes (b : List Nat)
  | string (s : String)
  | time (unixNano : Int)
  deriving DecidableEq

/-- An open result set: column names and the rows still to be read. -/
structure Rows where
  columns : List String
  rows : List (List DriverValue)

/-- A statement or query handed to the store with its bound values. -/
abbrev Call := String × List GoValue

/-- The store behind `p.db`. -/
structure DB where
  exec : String → List GoValue → Except String SqlResult
  query : String → List GoValue → Except String Rows

/-! ## `getFieldValueByJSONTag` and `countNotNilFields` -/

mutual
/-- The loop of `getFieldValueByJSONTag` (lines 284-296) from field `i` on. -/
def searchFields : FieldValues → String → Option GoValue
  | .nil, _ => none
  | .cons _ tag v rest, jsonTag =>
    if tag = jsonTag then some (ValueOf v)
    else
      match searchNested v jsonTag with
      | some nestedVal => some nestedVal
      | none => searchFields rest jsonTag
/-- Lines 291-295: the recursive call, made only for a field of kind struct. -/
def searchNested : GoValue → String → Option GoValue
  | .struct _ fs, jsonTag => searchFields fs jsonTag
  | _, _ => none
end

/-- `getFieldValueByJSONTag(obj, jsonTag)` (lines 278-299). -/
def getFieldValueByJSONTag (obj : GoValue) (jsonTag : String) : Outcome GoValue :=
  let val := match ValueOf obj with
    | .ptr _ v => v
    | .nilPtr _ => .nil
    | v => v
  match val with
  | .struct _ fs =>
    match searchFields fs jsonTag with
    | some v => .ok v
    | none => .error ("field with JSON tag " ++ jsonTag ++ " not found")
  | _ => .panic "reflect: call of reflect.Value.NumField on non-struct Value"

mutual
/-- The loop of `countNotNilFields` (lines 309-316). -/
def countFields : FieldValues → Nat
  | .nil => 0
  | .cons _ _ v rest => countField v + countFields rest
/-- Lines 311-315 for one field. -/
def countField : GoValue → Nat
  | .ptr _ _ => 1
  | .struct _ fs => countFields fs
  | _ => 0
end

/-- `countNotNilFields(obj)` (lines 301-319). -/
def countNotNilFields (obj : GoValue) : Outcome Nat :=
  let val := match ValueOf obj with
    | .ptr _ v => v
    | .nilPtr _ => .nil
    | v => v
  match val with
  | .struct _ fs => .ok (countFields fs)
  | _ => .panic "reflect: call of reflect.Value.NumField on non-struct Value"

/-! ## `InsertOrUpdateStruct` -/

/-- The locals `query`, `value`, `values` and `update` of
`InsertOrUpdateStruct`. -/
structure Builder where
  query : String
  value : List GoValue
  values : String
  update : String
  deriving DecidableEq

/-- Lines 219-231: whether the iteration for field `i` ends at one of the two
`continue` statements for a nil pointer.  `prevVal` is `none` when
`len(params) == 0`. -/
def skipAbsent (prevVal : Option GoValue) (i : Nat) (field : Field) : Outcome Bool :=
  if field.value.isNilPtr then
    match prevVal with
    | none => .ok true
    | some (.struct _ prevFields) =>
      match prevFields.toList[i]? with
      | none => .panic "reflect: Field index out of bounds"
      | some prevField =>
        let prevValue := prevField.Interface
        let currentValue := field.Interface
        .ok (decide (prevValue = currentValue))
    | some _ => .panic "reflect: Field of non-struct type"
  else .ok false

/-- Lines 235-239: the `continue` for an `id` column whose value is the
`int` 0. -/
def skipZeroId (columnName : String) (field : Field) : Bool :=
  decide (columnName = "id") && decide (field.Interface = GoValue.int 0)

/-- Lines 241-257: the field is written into the statement. -/
def emitField (notNilFields : Nat) (idValue : GoValue) (i : Nat) (columnName : String)
    (field : Field) (b : Builder) : Outcome Builder :=
  let query := b.query ++ (columnName ++ ",")
  match (ValueOf idValue).IsNil with
  | .ok idIsNil =>
    let percentNum := if idIsNil then i else i + 1
    let allField := notNilFields + percentNum + 1
    let values := b.values ++ ("$" ++ fmtInt percentNum ++ ",")
    let update :=
      if b.update.length = 0 then
        b.update ++ ("ON CONFLICT (id) DO UPDATE SET " ++ columnName ++ " = $" ++ fmtInt allField)
      else
        b.update ++ (", " ++ columnName ++ " = $" ++ fmtInt allField)
    .ok { query := query, value := b.value ++ [field.Interface], values := values,
          update := update }
  | .error e => .error e
  | .panic e => .panic e

/-- One iteration of the loop of lines 214-259, for field `i`. -/
def upsertField (notNilFields : Nat) (idValue : GoValue) (prevVal : Option GoValue)
    (i : Nat) (field : Field) (b : Builder) : Outcome Builder :=
  match skipAbsent prevVal i field with
  | .ok true => .ok b
  | .ok false =>
    let columnName := columnNameOf field.tag
    if skipZeroId columnName field then .ok b
    else emitField notNilFields idValue i columnName field b
  | .error e => .error e
  | .panic e => .panic e

/-- The loop of lines 214-259 over the fields from index `i` on. -/
def upsertLoop (notNilFields : Nat) (idValue : GoValue) (prevVal : Option GoValue) :
    Nat → List Field → Builder → Outcome Builder
  | _, [], b => .ok b
  | i, field :: rest, b =>
    match upsertField notNilFields idValue prevVal i field b with
    | .ok b1 => upsertLoop notNilFields idValue prevVal (i + 1) rest b1
    | .error e => .error e
    | .panic e => .panic e

/-- What lines 188-264 hand to `p.db.Exec`: the statement text `stmt`, its
three pieces, and the bound value list. -/
structure Statement where
  query : String
  values : String
  update : String
  value : List GoValue
  stmt : String
  deriving DecidableEq

/-- Lines 197-200: `prevVal`, when a previous snapshot is passed. -/
def previousOf (params : List GoValue) : Outcome (Option GoValue) :=
  match params with
  | [] => .ok none
  | p :: _ =>
    match ValueOf p with
    | .ptr _ v => .ok (some v)
    | .nilPtr _ => .panic "reflect: call of reflect.Value.Type on zero Value"
    | _ => .panic "reflect: call of reflect.Value.Elem on non-pointer Value"

/-- Lines 188-264 of `InsertOrUpdateStruct`: everything up to the call of
`p.db.Exec`. -/
def buildStatement (tableName : String) (data : GoValue) (params : List GoValue) :
    Outcome Statement :=
  match ValueOf data with
  | .ptr _ (.struct _ fields) =>
    match previousOf params with
    | .ok prevVal =>
      let query := "INSERT INTO " ++ tableName ++ " ("
      let values := "VALUES ("
      match getFieldValueByJSONTag data "id" with
      | .ok idValue =>
        match countNotNilFields data with
        | .ok notNilFields =>
          match upsertLoop notNilFields idValue prevVal 0 fields.toList
              { query := query, value := [], values := values, update := "" } with
          | .ok b =>
            let query := dropLastByte b.query ++ ")"
            let values := dropLastByte b.values ++ ")"
            let value := b.value ++ b.value
            .ok { query := query, values := values, update := b.update, value := value,
                  stmt := query ++ " " ++ values ++ " " ++ b.update }
          | .error e => .error e
          | .panic e => .panic e
        | .error e => .error e
        | .panic e => .panic e
      | .error e => .error e
      | .panic e => .panic e
    | .error e => .error e
    | .panic e => .panic e
  | _ => .panic "reflect: call of reflect.Value.Elem or NumField on a non-record"

/-- `FieldByName("ID").Set(v)` of line 273 on the fields of the record: the
field named `ID` must exist and have type `*int` or an interface type. -/
def setID (v : GoValue) : FieldValues → Outcome FieldValues
  | .nil => .panic "reflect: call of reflect.Value.Set on zero Value"
  | .cons name tag old rest =>
    if name = "ID" then
      match old with
      | .nilPtr .int => .ok (.cons name tag v rest)
      | .ptr _ (.int _) => .ok (.cons name tag v rest)
      | .iface _ => .ok (.cons name tag (.iface v) rest)
      | _ => .panic "reflect.Set: value of type *int is not assignable"
    else
      match setID v rest with
      | .ok rest1 => .ok (.cons name tag old rest1)
      | .error e => .error e
      | .panic e => .panic e

/-- A run of `InsertOrUpdateStruct`: what it returns, the statements it
executed, and the record `data` points to when it ends. -/
structure UpsertRun where
  outcome : Outcome SqlResult
  executed : List Call
  record : GoValue
  deriving DecidableEq

/-- `InsertOrUpdateStruct(tableName, data, params...)` (lines 188-276).
`newAddr` is the address of the fresh variable `idInt`.  A returned
`(nil, err)` is `Outcome.error`, a returned `(returnData, nil)` is
`Outcome.ok`. -/
def InsertOrUpdateStruct (db : DB) (newAddr : Nat) (tableName : String) (data : GoValue)
    (params : List GoValue) : UpsertRun :=
  let record := match ValueOf data with
    | .ptr _ v => v
    | _ => .nil
  match buildStatement tableName data params with
  | .error e => { outcome := .error e, executed := [], record := record }
  | .panic e => { outcome := .panic e, executed := [], record := record }
  | .ok st =>
    match db.exec st.stmt st.value with
    | .error err => { outcome := .error err, executed := [(st.stmt, st.value)], record := record }
    | .ok returnData =>
      let id := returnData.lastInsertId
      let idInt := id
      match record with
      | .struct name fields =>
        match setID (.ptr newAddr (.int idInt)) fields with
        | .ok fields1 =>
          { outcome := .ok returnData, executed := [(st.stmt, st.value)],
            record := .struct name fields1 }
        | .error e => { outcome := .error e, executed := [(st.stmt, st.value)], record := record }
        | .panic e => { outcome := .panic e, executed := [(st.stmt, st.value)], record := record }
      | _ => { outcome := .panic "reflect: FieldByName of non-struct type",
               executed := [(st.stmt, st.value)], record := record }

/-! ### Example records -/

/-- A `*string` holding `s`. -/
def strPtr (addr : Nat) (s : String) : GoValue := .ptr addr (.string s)

/-- A `*int` holding `n`. -/
def intPtr (addr : Nat) (n : Int) : GoValue := .ptr addr (.int n)

/-- The fields of the record type
`User { ID *int; Name *string; Email *string }` with json tags `id`, `name`,
`email`. -/
def userFields (id name email : GoValue) : FieldValues :=
  .cons "ID" "id" id (.cons "Name" "name" name (.cons "Email" "email" email .nil))

/-- A record of type `User`. -/
def user (id name email : GoValue) : GoValue :=
  .struct "User" (userFields id name email)

/-! ## Description of the generated statement -/

/-- The strings of a list joined by a separator. -/
def joinWith (sep : String) : List String → String
  | [] => ""
  | [a] => a
  | a :: b :: rest => a ++ sep ++ joinWith sep (b :: rest)

/-- The strings of a list one after the other. -/
def concatAll : List String → String
  | [] => ""
  | a :: rest => a ++ concatAll rest

/-- The previous snapshot a parameter list carries, if any. -/
def prevValOf : List GoValue → Option GoValue
  | [] => none
  | p :: _ =>
    match ValueOf p with
    | .ptr _ v => some v
    | _ => none

/-- The field is a nil pointer and the loop moves on: no snapshot was passed, or
the snapshot holds the same nil pointer at the same index. -/
def absentSkipped (prevVal : Option GoValue) (i : Nat) (f : Field) : Bool :=
  f.value.isNilPtr &&
    match prevVal with
    | none => true
    | some (.struct _ prevFields) =>
      match prevFields.toList[i]? with
      | some prevField => decide (prevField.Interface = f.Interface)
      | none => false
    | some _ => false

/-- The field at index `i` is written into the statement. -/
def isIncluded (prevVal : Option GoValue) (i : Nat) (f : Field) : Bool :=
  !absentSkipped prevVal i f && !skipZeroId (columnNameOf f.tag) f

/-- The included fields among those from index `i` on, each with its declared
index, in declared order. -/
def includedFrom (prevVal : Option GoValue) : Nat → List Field → List (Nat × Field)
  | _, [] => []
  | i, f :: rest =>
    if isIncluded prevVal i f then (i, f) :: includedFrom prevVal (i + 1) rest
    else includedFrom prevVal (i + 1) rest

/-- The included fields of a record, each with its declared index. -/
def includedFields (fields : FieldValues) (params : List GoValue) : List (Nat × Field) :=
  includedFrom (prevValOf params) 0 fields.toList

/-- Whether `reflect.ValueOf(idValue).IsNil()` holds. -/
def idNilOf (idValue : GoValue) : Bool :=
  match (ValueOf idValue).IsNil with
  | .ok b => b
  | _ => false

/-- The value of the first field tagged `id`, as line 206 finds it. -/
def idValueOf (fields : FieldValues) : GoValue :=
  match searchFields fields "id" with
  | some v => v
  | none => .nil

/-- The number `percentNum` the code gives the field at declared index `i`. -/
def insertIndex (fields : FieldValues) (i : Nat) : Nat :=
  if idNilOf (idValueOf fields) then i else i + 1

/-- The number `allField` the code gives the field at declared index `i`. -/
def updateIndex (fields : FieldValues) (i : Nat) : Nat :=
  countFields fields + insertIndex fields i + 1

/-- The insert part of a statement for a non-empty column list. -/
def renderColumns (tableName : String) (columns : List String) : String :=
  "INSERT INTO " ++ tableName ++ " (" ++ joinWith "," columns ++ ")"

/-- The `VALUES` part of a statement for a non-empty list of placeholder
numbers. -/
def renderValues (indices : List Nat) : String :=
  "VALUES (" ++ joinWith "," (indices.map fun n => "$" ++ fmtInt n) ++ ")"

/-- The conflict clause assigning the listed columns from the listed
placeholder numbers. -/
def renderUpdate (assignments : List (String × Nat)) : String :=
  "ON CONFLICT (id) DO UPDATE SET " ++
    joinWith ", " (assignments.map fun a => a.1 ++ " = $" ++ fmtInt a.2)

/-- Lines 241-257 once `IsNil` has answered `idIsNil`. -/
def emitWith (notNilFields : Nat) (idIsNil : Bool) (b : Builder) (e : Nat × Field) : Builder :=
  let columnName := columnNameOf e.2.tag
  let percentNum := if idIsNil then e.1 else e.1 + 1
  let allField := notNilFields + percentNum + 1
  { query := b.query ++ (columnName ++ ","),
    value := b.value ++ [e.2.Interface],
    values := b.values ++ ("$" ++ fmtInt percentNum ++ ","),
    update :=
      if b.update.length = 0 then
        b.update ++ ("ON CONFLICT (id) DO UPDATE SET " ++ columnName ++ " = $" ++ fmtInt allField)
      else
        b.update ++ (", " ++ columnName ++ " = $" ++ fmtInt allField) }

/-! ## `Row` and `Query` -/

/-- What the per-row mapping `resultValue` binds a column name to: the text
`string(b)` of a byte column, the truth value `val != 0` of a column whose
field is a `bool`, or the scanned slot `values[i]` itself. -/
inductive Decoded where
  | text (bytes : List Nat)
  | truth (b : Bool)
  | slot (d : DriverValue)
  deriving DecidableEq

/-- The mapping `map[string]any` built for a row. -/
abbrev RowMap := List (String × Decoded)

/-- The assignment `m[k] = v`. -/
def RowMap.set (m : RowMap) (k : String) (v : Decoded) : RowMap :=
  (k, v) :: m.filter fun e => e.1 != k

/-- The lookup `m[k]`. -/
def RowMap.get? (m : RowMap) (k : String) : Option Decoded :=
  List.lookup k m

/-- `rows.Scan(values...)` into `numFields` slots of type `*interface{}`: it
fails when the number of slots differs from the number of columns of the row,
and otherwise stores each driver value unconverted. -/
def scan (numFields : Nat) (row : List DriverValue) : Except String (List DriverValue) :=
  if row.length = numFields then .ok row
  else .error "sql: expected a different number of destination arguments in Scan"

/-- Lines 86-98 (and 164-176): the body of the loop over the column names, for
the column `v` at ordinal position `i`. -/
def decodeColumn (fieldTypes : List GoType) (values : List DriverValue) (i : Nat) (v : String)
    (resultValue : RowMap) : Outcome RowMap :=
  match values[i]? with
  | none => .panic "index out of range"
  | some (.bytes b) => .ok (resultValue.set v (.text b))
  | some d =>
    match fieldTypes[i]? with
    | none => .panic "reflect: Field index out of range"
    | some t =>
      if t.Name = "bool" then
        match d with
        | .int64 val => .ok (resultValue.set v (.truth (decide (val ≠ 0))))
        | _ => .panic "interface conversion: interface {} is not int64"
      else .ok (resultValue.set v (.slot d))

/-- Lines 85-99 (and 163-177): the loop over the column names from ordinal
position `i` on. -/
def decodeColumns (fieldTypes : List GoType) (values : List DriverValue) :
    Nat → List String → RowMap → Outcome RowMap
  | _, [], m => .ok m
  | i, v :: rest, m =>
    match decodeColumn fieldTypes values i v m with
    | .ok m1 => decodeColumns fieldTypes values (i + 1) rest m1
    | .error e => .error e
    | .panic e => .panic e

/-- Lines 73-99 (and 151-177): one row is scanned and decoded into the
mapping. -/
def decodeRow (fieldTypes : List GoType) (columNames : List String) (row : List DriverValue)
    (resultValue : RowMap) : Outcome RowMap :=
  match scan fieldTypes.length row with
  | .error err => .error err
  | .ok values => decodeColumns fieldTypes values 0 columNames resultValue

/-- A run of `Row` or `Query`: what it returns, the queries it sent to the
store, and the mapping it built (empty when it did not get that far). -/
structure DecodeRun (μ : Type) where
  outcome : Outcome Unit
  queries : List Call
  result : μ

/-- The loop `for rows.Next()` of `Row` (lines 71-100); all rows write into the
one mapping. -/
def rowLoop (fieldTypes : List GoType) (columNames : List String) :
    List (List DriverValue) → RowMap → Outcome RowMap
  | [], m => .ok m
  | row :: rest, m =>
    match decodeRow fieldTypes columNames row m with
    | .ok m1 => rowLoop fieldTypes columNames rest m1
    | .error e => .error e
    | .panic e => .panic e

/-- The loop `for rows.Next()` of `Query` (lines 149-180); every row gets a
fresh mapping, appended to `resultValues`. -/
def queryLoop (fieldTypes : List GoType) (columNames : List String) :
    List (List DriverValue) → List RowMap → Outcome (List RowMap)
  | [], ms => .ok ms
  | row :: rest, ms =>
    match decodeRow fieldTypes columNames row [] with
    | .ok m1 => queryLoop fieldTypes columNames rest (ms ++ [m1])
    | .error e => .error e
    | .panic e => .panic e

/-- The test `value.Kind() != reflect.Ptr || value.Elem().Kind() != reflect.Struct`
of lines 54 and 131. -/
def notPtrToStruct (value : GoValue) : Bool :=
  value.Kind != .Ptr ||
    match value.Elem with
    | .ok e => e.Kind != .Struct
    | _ => true

/-- `Row(q, fields, params...)` (lines 51-113).  `project` stands for
`sonic.Marshal` followed by `sonic.Unmarshal` into `fields` and gives the
error of that pair, if any. -/
def Row (db : DB) (project : RowMap → Option String) (q : String) (fields : GoValue)
    (params : List GoValue) : DecodeRun RowMap :=
  let value := ValueOf fields
  if notPtrToStruct value then
    { outcome := .error "fields must be a pointer to a struct", queries := [], result := [] }
  else
    match value.Elem with
    | .ok (.struct _ structFields) =>
      let fieldTypes := structFields.typesOf.toList
      match db.query q params with
      | .error err => { outcome := .error err, queries := [(q, params)], result := [] }
      | .ok rows =>
        match rowLoop fieldTypes rows.columns rows.rows [] with
        | .ok resultValue =>
          match project resultValue with
          | some err => { outcome := .error err, queries := [(q, params)], result := resultValue }
          | none => { outcome := .ok (), queries := [(q, params)], result := resultValue }
        | .error e => { outcome := .error e, queries := [(q, params)], result := [] }
        | .panic e => { outcome := .panic e, queries := [(q, params)], result := [] }
    | _ => { outcome := .panic "reflect: NumField of non-struct type", queries := [], result := [] }

/-- Line 123: `reflect.ValueOf(valueAny.Elem().Interface()).Elem()`. -/
def valueArrayOf (valueAny : GoValue) : Outcome GoValue :=
  match valueAny.Elem with
  | .ok e =>
    match e.Interface with
    | .ok x => (ValueOf x).Elem
    | .error msg => .error msg
    | .panic msg => .panic msg
  | .error msg => .error msg
  | .panic msg => .panic msg

/-- `Query(q, fields, params...)` (lines 115-186).  The errors of
`sonic.Marshal` and `sonic.Unmarshal` are dropped by the code. -/
def Query (db : DB) (q : String) (fields : GoValue) (params : List GoValue) :
    DecodeRun (List RowMap) :=
  let valueAny := ValueOf fields
  if valueAny.Kind != .Ptr then
    { outcome := .error "fields must be a pointer to a struct", queries := [], result := [] }
  else
    match valueArrayOf valueAny with
    | .ok valueArray =>
      if valueArray.Kind != .Slice then
        { outcome := .error "fields must be an array", queries := [], result := [] }
      else
        match valueArray.typeOf with
        | .slice (.struct _ structFields) =>
          let fieldTypes := structFields.toList
          match db.query q params with
          | .error err => { outcome := .error err, queries := [(q, params)], result := [] }
          | .ok rows =>
            match queryLoop fieldTypes rows.columns rows.rows [] with
            | .ok resultValues => { outcome := .ok (), queries := [(q, params)], result := resultValues }
            | .error e => { outcome := .error e, queries := [(q, params)], result := [] }
            | .panic e => { outcome := .panic e, queries := [(q, params)], result := [] }
        | _ => { outcome := .error "fields must be a pointer to a struct", queries := [], result := [] }
    | .error msg => { outcome := .error msg, queries := [], result := [] }
    | .panic msg => { outcome := .panic msg, queries := [], result := [] }

/-! ## Definitions used to state the claims -/

mutual
/-- Some field of the struct carries the json tag `jsonTag`, searching the
declared fields in order and, recursively, the fields of nested struct-typed
fields. -/
def hasFieldTagged : FieldValues → String → Bool
  | .nil, _ => false
  | .cons _ tag v rest, jsonTag =>
    decide (tag = jsonTag) || nestedHasFieldTagged v jsonTag || hasFieldTagged rest jsonTag
/-- The value is a struct one of whose fields carries the json tag. -/
def nestedHasFieldTagged : GoValue → String → Bool
  | .struct _ fs, jsonTag => hasFieldTagged fs jsonTag
  | _, _ => false
end

/-- A store whose results report no identifier: `Exec` succeeds and
`LastInsertId` returns 0 with an error, as `lib/pq` does. -/
def storeWithoutLastInsertId : DB where
  exec := fun _ _ => .ok
    { lastInsertId := 0,
      lastInsertIdErr := some "LastInsertId is not supported by this driver",
      rowsAffected := 1 }
  query := fun _ _ => .error "no rows"

/-- The statement made of the listed included fields (each with its declared
index) of a record with the given fields: insert column list, `VALUES` list and
conflict clause as the code writes them, the bound values twice over.  Without
any included field the code leaves the two parentheses unbalanced and the
conflict clause empty. -/
def renderStatement (tableName : String) (fields : FieldValues)
    (incl : List (Nat × Field)) : Statement :=
  let query := match incl with
    | [] => "INSERT INTO " ++ tableName ++ " )"
    | _ :: _ => renderColumns tableName (incl.map fun e => columnNameOf e.2.tag)
  let values := match incl with
    | [] => "VALUES )"
    | _ :: _ => renderValues (incl.map fun e => insertIndex fields e.1)
  let update := match incl with
    | [] => ""
    | _ :: _ => renderUpdate (incl.map fun e => (columnNameOf e.2.tag, updateIndex fields e.1))
  { query := query,
    values := values,
    update := update,
    value := (incl.map fun e => e.2.Interface) ++ (incl.map fun e => e.2.Interface),
    stmt := query ++ " " ++ values ++ " " ++ update }

/-- The record has a field named `ID` that line 273 can set: the first field
of that name has type `*int` or an interface type. -/
def idFieldSettable : FieldValues → Bool
  | .nil => false
  | .cons name _ old rest =>
    if name = "ID" then
      match old with
      | .nilPtr .int => true
      | .ptr _ (.int _) => true
      | .iface _ => true
      | _ => false
    else idFieldSettable rest

/-- A store whose results report the identifier `id`. -/
def storeReporting (id : Int) : DB where
  exec := fun _ _ => .ok { lastInsertId := id, lastInsertIdErr := none, rowsAffected := 1 }
  query := fun _ _ => .error "no rows"

/-- The fields of the record type
`Account { Key *int; ID *int; Name string }` with json tags `id`, `ref`,
`name`: the identity column is held by `Key`, and `ID` is another column. -/
def accountFields (key ref name : GoValue) : FieldValues :=
  .cons "Key" "id" key (.cons "ID" "ref" ref (.cons "Name" "name" name .nil))

/-- The fields of the record type `Item { Id *int; Name string }` with json
tags `id`, `name`, which has no field named `ID`. -/
def itemFields (id name : GoValue) : FieldValues :=
  .cons "Id" "id" id (.cons "Name" "name" name .nil)

/-- A store answering every query with the columns `id`, `active` and the one
row `5, 1`. -/
def flagStore : DB where
  exec := fun _ _ => .error "not a statement"
  query := fun _ _ => .ok { columns := ["id", "active"], rows := [[.int64 5, .int64 1]] }

/-- A store answering every query with two columns both named `active`, as a
join selecting `u.active, o.active` produces them, and the one row `1, 0`. -/
def duplicateColumnStore : DB where
  exec := fun _ _ => .error "not a statement"
  query := fun _ _ => .ok { columns := ["active", "active"], rows := [[.int64 1, .int64 0]] }

/-- The declared fields of the record type `Flagged { ID int64; Active bool }`
with json tags `id`, `active`. -/
def flaggedType : FieldTypes :=
  .cons "ID" "id" .int64 (.cons "Active" "active" .bool .nil)

/-- The declared fields of the record type
`Pair { UserActive bool; OrgActive bool }` with json tags `user_active`,
`org_active`. -/
def pairType : FieldTypes :=
  .cons "UserActive" "user_active" .bool (.cons "OrgActive" "org_active" .bool .nil)

/-! ## Lemmas on strings -/

theorem dropLastByte_append_comma (s c : String) : dropLastByte (s ++ (c ++ ",")) = s ++ c := by
  apply String.ext
  show (s.data ++ (c.data ++ [','])).dropLast = s.data ++ c.data
  rw [← List.append_assoc, List.dropLast_concat]

theorem dropLastByte_concat (pre c : String) (cs : List String) :
    dropLastByte (pre ++ concatAll ((c :: cs).map fun x => x ++ ",")) =
      pre ++ joinWith "," (c :: cs) := by
  induction cs generalizing pre c with
  | nil =>
    simp only [List.map, concatAll, String.append_empty, joinWith]
    exact dropLastByte_append_comma pre c
  | cons d ds ih =>
    have h := ih (pre ++ (c ++ ",")) d
    simp only [List.map, concatAll, joinWith, String.append_assoc] at h ⊢
    exact h

theorem joinWith_cons (sep a : String) (rest : List String) :
    joinWith sep (a :: rest) = a ++ concatAll (rest.map fun x => sep ++ x) := by
  induction rest generalizing a with
  | nil => simp [joinWith, concatAll]
  | cons b bs ih =>
    simp only [joinWith, List.map, concatAll, ih b, String.append_assoc]

/-! ## Lemmas on the loop of `InsertOrUpdateStruct` -/

theorem skipAbsent_ok (prevVal : Option GoValue) (i : Nat) (f : Field) (r : Bool)
    (h : skipAbsent prevVal i f = .ok r) : absentSkipped prevVal i f = r := by
  unfold skipAbsent at h
  unfold absentSkipped
  cases hn : f.value.isNilPtr with
  | false =>
    rw [hn] at h
    simp at h
    simp [h]
  | true =>
    rw [hn] at h
    simp only [if_true] at h
    cases prevVal with
    | none =>
      simp at h
      simp [h]
    | some pv =>
      cases pv <;> simp only [reduceCtorEq] at h
      rename_i nm pfs
      cases hg : pfs.toList[i]? with
      | none => rw [hg] at h; simp at h
      | some pf =>
        rw [hg] at h
        simp only [Outcome.ok.injEq] at h
        simp only [hg, Bool.true_and]
        exact h

theorem upsertField_ok (n : Nat) (idv : GoValue) (prevVal : Option GoValue) (i : Nat) (f : Field)
    (b b1 : Builder) (h : upsertField n idv prevVal i f b = .ok b1) :
    (isIncluded prevVal i f = false ∧ b1 = b) ∨
      (isIncluded prevVal i f = true ∧ (ValueOf idv).IsNil = .ok (idNilOf idv) ∧
        b1 = emitWith n (idNilOf idv) b (i, f)) := by
  unfold upsertField at h
  cases hs : skipAbsent prevVal i f with
  | error e => rw [hs] at h; simp at h
  | panic e => rw [hs] at h; simp at h
  | ok r =>
    have ha := skipAbsent_ok prevVal i f r hs
    rw [hs] at h
    cases r with
    | true =>
      simp at h
      left
      exact ⟨by simp [isIncluded, ha], h.symm⟩
    | false =>
      simp only at h
      cases hz : skipZeroId (columnNameOf f.tag) f with
      | true =>
        rw [hz] at h
        simp at h
        left
        exact ⟨by simp [isIncluded, hz], h.symm⟩
      | false =>
        rw [hz] at h
        simp only [Bool.false_eq_true, if_false] at h
        right
        unfold emitField at h
        cases hid : (ValueOf idv).IsNil with
        | error e => rw [hid] at h; simp at h
        | panic e => rw [hid] at h; simp at h
        | ok idIsNil =>
          rw [hid] at h
          have hidn : idNilOf idv = idIsNil := by simp [idNilOf, hid]
          refine ⟨by simp [isIncluded, ha, hz], by rw [hidn], ?_⟩
          simp only [Outcome.ok.injEq] at h
          rw [hidn, ← h]
          rfl

theorem upsertLoop_ok (n : Nat) (idv : GoValue) (prevVal : Option GoValue) :
    ∀ (fs : List Field) (i : Nat) (b b1 : Builder),
      upsertLoop n idv prevVal i fs b = .ok b1 →
        b1 = (includedFrom prevVal i fs).foldl (emitWith n (idNilOf idv)) b ∧
          (includedFrom prevVal i fs ≠ [] → (ValueOf idv).IsNil = .ok (idNilOf idv)) := by
  intro fs
  induction fs with
  | nil =>
    intro i b b1 h
    simp [upsertLoop] at h
    simp [includedFrom, h]
  | cons f rest ih =>
    intro i b b1 h
    unfold upsertLoop at h
    cases hf : upsertField n idv prevVal i f b with
    | error e => rw [hf] at h; simp at h
    | panic e => rw [hf] at h; simp at h
    | ok b2 =>
      rw [hf] at h
      simp only at h
      obtain ⟨hb, hnil⟩ := ih (i + 1) b2 b1 h
      rcases upsertField_ok n idv prevVal i f b b2 hf with ⟨hinc, hb2⟩ | ⟨hinc, hid, hb2⟩
      · subst hb2
        simp only [includedFrom, hinc, Bool.false_eq_true, if_false]
        exact ⟨hb, hnil⟩
      · subst hb2
        simp only [includedFrom, hinc, if_true, List.foldl_cons]
        exact ⟨hb, fun _ => hid⟩

theorem foldl_emitWith_query (n : Nat) (idNil : Bool) (sel : List (Nat × Field)) (b : Builder) :
    (sel.foldl (emitWith n idNil) b).query =
      b.query ++ concatAll (sel.map fun e => columnNameOf e.2.tag ++ ",") := by
  induction sel generalizing b with
  | nil => simp [concatAll]
  | cons e es ih =>
    simp only [List.foldl_cons, List.map_cons, concatAll, ih]
    simp [emitWith, String.append_assoc]

theorem foldl_emitWith_values (n : Nat) (idNil : Bool) (sel : List (Nat × Field)) (b : Builder) :
    (sel.foldl (emitWith n idNil) b).values =
      b.values ++ concatAll (sel.map fun e =>
        ("$" ++ fmtInt (if idNil then e.1 else e.1 + 1)) ++ ",") := by
  induction sel generalizing b with
  | nil => simp [concatAll]
  | cons e es ih =>
    simp only [List.foldl_cons, List.map_cons, concatAll, ih]
    simp [emitWith, String.append_assoc]

theorem foldl_emitWith_value (n : Nat) (idNil : Bool) (sel : List (Nat × Field)) (b : Builder) :
    (sel.foldl (emitWith n idNil) b).value = b.value ++ sel.map fun e => e.2.Interface := by
  induction sel generalizing b with
  | nil => simp
  | cons e es ih =>
    simp only [List.foldl_cons, List.map_cons, ih]
    simp [emitWith]

theorem foldl_emitWith_update_nonempty (n : Nat) (idNil : Bool) (sel : List (Nat × Field))
    (b : Builder) (hb : b.update.length ≠ 0) :
    (sel.foldl (emitWith n idNil) b).update =
      b.update ++ concatAll (sel.map fun e => ", " ++
        (columnNameOf e.2.tag ++ " = $" ++ fmtInt (n + (if idNil then e.1 else e.1 + 1) + 1))) := by
  induction sel generalizing b with
  | nil => simp [concatAll]
  | cons e es ih =>
    have hlen : (emitWith n idNil b e).update.length ≠ 0 := by
      simp only [emitWith, hb, if_false, String.length_append]
      omega
    simp only [List.foldl_cons, List.map_cons, concatAll, ih _ hlen]
    simp [emitWith, hb, String.append_assoc]

theorem foldl_emitWith_update (n : Nat) (idNil : Bool) (e : Nat × Field)
    (es : List (Nat × Field)) (b : Builder) (hb : b.update = "") :
    ((e :: es).foldl (emitWith n idNil) b).update =
      renderUpdate ((e :: es).map fun e =>
        (columnNameOf e.2.tag, n + (if idNil then e.1 else e.1 + 1) + 1)) := by
  have hhead : ("ON CONFLICT (id) DO UPDATE SET " : String).length = 31 := by decide
  have hlen : (emitWith n idNil b e).update.length ≠ 0 := by
    have h0 : ("" : String).length = 0 := rfl
    simp only [emitWith, hb, h0, if_true, String.length_append]
    omega
  rw [List.foldl_cons, foldl_emitWith_update_nonempty n idNil es _ hlen]
  simp only [renderUpdate, List.map_cons, joinWith_cons, List.map_map]
  simp [emitWith, hb, String.append_assoc, Function.comp_def]

theorem previousOf_ok (params : List GoValue) (pv : Option GoValue)
    (h : previousOf params = .ok pv) : pv = prevValOf params := by
  unfold previousOf at h
  unfold prevValOf
  cases params with
  | nil => simp at h; exact h.symm
  | cons p rest =>
    simp only at h ⊢
    cases hp : ValueOf p <;> rw [hp] at h <;> simp at h
    exact h.symm

/-- The statement `buildStatement` returns, described through the included
fields of the record. -/
theorem buildStatement_ok (tableName : String) (a : Nat) (nm : String) (fs : FieldValues)
    (params : List GoValue) (st : Statement)
    (h : buildStatement tableName (.ptr a (.struct nm fs)) params = .ok st) :
    st.value = (includedFields fs params).map (fun e => e.2.Interface) ++
        (includedFields fs params).map (fun e => e.2.Interface) ∧
      st.stmt = st.query ++ " " ++ st.values ++ " " ++ st.update ∧
      (includedFields fs params ≠ [] →
        st.query = renderColumns tableName
            ((includedFields fs params).map fun e => columnNameOf e.2.tag) ∧
          st.values = renderValues ((includedFields fs params).map fun e => insertIndex fs e.1) ∧
          st.update = renderUpdate ((includedFields fs params).map fun e =>
            (columnNameOf e.2.tag, updateIndex fs e.1))) := by
  unfold buildStatement at h
  simp only [ValueOf] at h
  cases hp : previousOf params with
  | error e => rw [hp] at h; simp at h
  | panic e => rw [hp] at h; simp at h
  | ok pv =>
    have hpv := previousOf_ok params pv hp
    rw [hp] at h
    simp only [getFieldValueByJSONTag, countNotNilFields, ValueOf] at h
    cases hs : searchFields fs "id" with
    | none => rw [hs] at h; simp at h
    | some idv =>
      rw [hs] at h
      simp only at h
      have hidv : idValueOf fs = idv := by simp [idValueOf, hs]
      cases hl : upsertLoop (countFields fs) idv pv 0 fs.toList
          { query := "INSERT INTO " ++ tableName ++ " (", value := [], values := "VALUES (",
            update := "" } with
      | error e => rw [hl] at h; simp at h
      | panic e => rw [hl] at h; simp at h
      | ok b =>
        rw [hl] at h
        simp only [Outcome.ok.injEq] at h
        obtain ⟨hb, -⟩ := upsertLoop_ok (countFields fs) idv pv fs.toList 0 _ b hl
        rw [hpv] at hb
        have hsel : includedFrom (prevValOf params) 0 fs.toList = includedFields fs params := rfl
        rw [hsel] at hb
        subst h
        refine ⟨?_, rfl, ?_⟩
        · simp only [hb, foldl_emitWith_value, List.nil_append]
        · intro hne
          cases hsel2 : includedFields fs params with
          | nil => exact absurd hsel2 hne
          | cons e es =>
            rw [hsel2] at hb
            refine ⟨?_, ?_, ?_⟩
            · simp only [hb, foldl_emitWith_query, renderColumns]
              have := dropLastByte_concat ("INSERT INTO " ++ tableName ++ " (")
                (columnNameOf e.2.tag) (es.map fun e => columnNameOf e.2.tag)
              simp only [List.map_cons, List.map_map, Function.comp_def] at this ⊢
              rw [this]
            · simp only [hb, foldl_emitWith_values, renderValues, insertIndex, hidv]
              have := dropLastByte_concat "VALUES ("
                ("$" ++ fmtInt (if idNilOf idv then e.1 else e.1 + 1))
                (es.map fun e => "$" ++ fmtInt (if idNilOf idv then e.1 else e.1 + 1))
              simp only [List.map_cons, List.map_map, Function.comp_def] at this ⊢
              rw [this]
            · rw [hb, foldl_emitWith_update _ _ _ _ _ rfl]
              simp only [updateIndex, insertIndex, hidv]

theorem mem_includedFrom (prevVal : Option GoValue) (i : Nat) (f : Field) :
    ∀ (fs : List Field) (k : Nat),
      (i, f) ∈ includedFrom prevVal k fs ↔
        ∃ j, fs[j]? = some f ∧ i = k + j ∧ isIncluded prevVal i f = true := by
  intro fs
  induction fs with
  | nil => intro k; simp [includedFrom]
  | cons g rest ih =>
    intro k
    have hrest := ih (k + 1)
    constructor
    · intro hmem
      unfold includedFrom at hmem
      by_cases hg : isIncluded prevVal k g = true
      · rw [if_pos hg] at hmem
        rcases List.mem_cons.mp hmem with heq | hin
        · have h1 : i = k := congrArg Prod.fst heq
          have h2 : f = g := congrArg Prod.snd heq
          subst h1; subst h2
          exact ⟨0, by simp, by simp, hg⟩
        · obtain ⟨j, hj, hi, hinc⟩ := hrest.mp hin
          exact ⟨j + 1, by simpa using hj, by omega, hinc⟩
      · rw [if_neg hg] at hmem
        obtain ⟨j, hj, hi, hinc⟩ := hrest.mp hmem
        exact ⟨j + 1, by simpa using hj, by omega, hinc⟩
    · rintro ⟨j, hj, hi, hinc⟩
      unfold includedFrom
      cases j with
      | zero =>
        simp at hj
        subst hj
        have hik : i = k := by omega
        subst hik
        rw [if_pos hinc]
        exact List.mem_cons_self _ _
      | succ j =>
        have hin : (i, f) ∈ includedFrom prevVal (k + 1) rest :=
          hrest.mpr ⟨j, by simpa using hj, by omega, hinc⟩
        by_cases hg : isIncluded prevVal k g = true
        · rw [if_pos hg]; exact List.mem_cons_of_mem _ hin
        · rw [if_neg hg]; exact hin

theorem mem_includedFields (fs : FieldValues) (params : List GoValue) (i : Nat) (f : Field) :
    (i, f) ∈ includedFields fs params ↔
      fs.toList[i]? = some f ∧ isIncluded (prevValOf params) i f = true := by
  unfold includedFields
  rw [mem_includedFrom]
  constructor
  · rintro ⟨j, hj, hi, hinc⟩
    have : i = j := by omega
    subst this
    exact ⟨hj, hinc⟩
  · rintro ⟨hj, hinc⟩
    exact ⟨i, hj, by omega, hinc⟩

/-! ## The claims -/

/-- C1 (code defect).  For the record `User{ID: nil, Name: &"Ana", Email: nil}`
without a snapshot one field is included (N = 1) and the value list has the
two entries `Ana, Ana`, but the conflict clause uses the placeholder `$3`
where the claim requires `$2`: `allField` is `notNilFields + percentNum + 1`. -/
theorem C1_update_placeholder_beyond_values :
    buildStatement "users" (.ptr 1 (user (.nilPtr .int) (strPtr 2 "Ana") (.nilPtr .string))) [] =
      .ok { query := "INSERT INTO users (name)",
            values := "VALUES ($1)",
            update := "ON CONFLICT (id) DO UPDATE SET name = $3",
            value := [strPtr 2 "Ana", strPtr 2 "Ana"],
            stmt := "INSERT INTO users (name) VALUES ($1) ON CONFLICT (id) DO UPDATE SET name = $3" } := by
  decide

/-- C2 (code defect).  For the record `User{ID: &7, Name: nil, Email: &"z@y.com"}`
without a snapshot two fields are included (N = 2), but the `VALUES` list is
`($1,$3)` where the claim requires `($1,$2)`: `percentNum` is taken from the
declared index of the field, so a skipped field leaves a gap. -/
theorem C2_values_placeholders_skip_a_number :
    buildStatement "users" (.ptr 1 (user (intPtr 5 7) (.nilPtr .string) (strPtr 2 "z@y.com"))) [] =
      .ok { query := "INSERT INTO users (id,email)",
            values := "VALUES ($1,$3)",
            update := "ON CONFLICT (id) DO UPDATE SET id = $4, email = $6",
            value := [intPtr 5 7, strPtr 2 "z@y.com", intPtr 5 7, strPtr 2 "z@y.com"],
            stmt := "INSERT INTO users (id,email) VALUES ($1,$3) ON CONFLICT (id) DO UPDATE SET id = $4, email = $6" } := by
  decide

/-- C3 (code defect).  For the record `User{ID: &0, Name: &"Ana", Email: nil}`
without a snapshot the identity value is zero, yet the column `id` is in the
insert column list: the test `valueField.Interface() == 0` of line 236 compares
a `*int` with the `int` 0 and is never true for a pointer identity. -/
theorem C3_zero_identity_is_inserted :
    buildStatement "users" (.ptr 1 (user (intPtr 5 0) (strPtr 2 "Ana") (.nilPtr .string))) [] =
      .ok { query := "INSERT INTO users (id,name)",
            values := "VALUES ($1,$2)",
            update := "ON CONFLICT (id) DO UPDATE SET id = $4, name = $5",
            value := [intPtr 5 0, strPtr 2 "Ana", intPtr 5 0, strPtr 2 "Ana"],
            stmt := "INSERT INTO users (id,name) VALUES ($1,$2) ON CONFLICT (id) DO UPDATE SET id = $4, name = $5" } := by
  decide

/-- C4, as stated, fails.  For the record `User{ID: &7, Name: &"Ana", Email: nil}`
the conflict clause assigns the identity column `id`. -/
theorem C4_counterexample :
    ∃ st, buildStatement "users"
        (.ptr 1 (user (intPtr 5 7) (strPtr 2 "Ana") (.nilPtr .string))) [] = .ok st ∧
      st.query = "INSERT INTO users (id,name)" ∧
      st.update = "ON CONFLICT (id) DO UPDATE SET id = $4, name = $5" ∧
      st.update = renderUpdate [("id", 4), ("name", 5)] := by
  refine ⟨_, (by decide : buildStatement "users"
      (.ptr 1 (user (intPtr 5 7) (strPtr 2 "Ana") (.nilPtr .string))) [] = .ok
        { query := "INSERT INTO users (id,name)",
          values := "VALUES ($1,$2)",
          update := "ON CONFLICT (id) DO UPDATE SET id = $4, name = $5",
          value := [intPtr 5 7, strPtr 2 "Ana", intPtr 5 7, strPtr 2 "Ana"],
          stmt := "INSERT INTO users (id,name) VALUES ($1,$2) ON CONFLICT (id) DO UPDATE SET id = $4, name = $5" }),
    rfl, rfl, by decide⟩

/-- C4, amended.  For every record (and optional snapshot) for which a
statement with at least one included field is built, the conflict target is
the column `id` and the columns assigned in the `DO UPDATE SET` clause are
exactly the columns of the insert column list, that is all included fields,
the identity column among them when it is included, in declared order, each
assigned once. -/
theorem C4_update_assigns_every_included_field (tableName : String) (a : Nat) (nm : String)
    (fs : FieldValues) (params : List GoValue) (st : Statement)
    (h : buildStatement tableName (.ptr a (.struct nm fs)) params = .ok st)
    (hN : includedFields fs params ≠ []) :
    st.query = renderColumns tableName
        ((includedFields fs params).map fun e => columnNameOf e.2.tag) ∧
      st.update = "ON CONFLICT (id) DO UPDATE SET " ++
        joinWith ", " ((includedFields fs params).map fun e =>
          columnNameOf e.2.tag ++ " = $" ++ fmtInt (updateIndex fs e.1)) := by
  obtain ⟨-, -, hr⟩ := buildStatement_ok tableName a nm fs params st h
  obtain ⟨hq, -, hu⟩ := hr hN
  refine ⟨hq, ?_⟩
  rw [hu]
  simp [renderUpdate, List.map_map, Function.comp_def]

/-- C4, amended, at the record `User{ID: &7, Name: &"Ana", Email: nil}`. -/
theorem C4_update_assigns_every_included_field_witness :
    buildStatement "users" (.ptr 1 (user (intPtr 5 7) (strPtr 2 "Ana") (.nilPtr .string))) [] =
        .ok { query := "INSERT INTO users (id,name)",
              values := "VALUES ($1,$2)",
              update := "ON CONFLICT (id) DO UPDATE SET id = $4, name = $5",
              value := [intPtr 5 7, strPtr 2 "Ana", intPtr 5 7, strPtr 2 "Ana"],
              stmt := "INSERT INTO users (id,name) VALUES ($1,$2) ON CONFLICT (id) DO UPDATE SET id = $4, name = $5" } ∧
      includedFields (userFields (intPtr 5 7) (strPtr 2 "Ana") (.nilPtr .string)) [] ≠ [] ∧
      "INSERT INTO users (id,name)" = renderColumns "users"
        ((includedFields (userFields (intPtr 5 7) (strPtr 2 "Ana") (.nilPtr .string)) []).map
          fun e => columnNameOf e.2.tag) ∧
      "ON CONFLICT (id) DO UPDATE SET id = $4, name = $5" =
        "ON CONFLICT (id) DO UPDATE SET " ++
          joinWith ", "
            ((includedFields (userFields (intPtr 5 7) (strPtr 2 "Ana") (.nilPtr .string)) []).map
              fun e => columnNameOf e.2.tag ++ " = $" ++
                fmtInt (updateIndex (userFields (intPtr 5 7) (strPtr 2 "Ana") (.nilPtr .string))
                  e.1)) :=
  ⟨by decide, by decide,
    C4_update_assigns_every_included_field "users" 1 "User"
      (userFields (intPtr 5 7) (strPtr 2 "Ana") (.nilPtr .string)) []
      { query := "INSERT INTO users (id,name)",
        values := "VALUES ($1,$2)",
        update := "ON CONFLICT (id) DO UPDATE SET id = $4, name = $5",
        value := [intPtr 5 7, strPtr 2 "Ana", intPtr 5 7, strPtr 2 "Ana"],
        stmt := "INSERT INTO users (id,name) VALUES ($1,$2) ON CONFLICT (id) DO UPDATE SET id = $4, name = $5" }
      (by decide) (by decide)⟩

/-- C5, as stated, fails.  For the record `User{ID: &7, Name: &"Ana", Email: nil}`
with the snapshot `User{ID: &7, Name: &"Ana", Email: &"x@y.com"}` the absent
field `Email` changed, and its column is in the insert column list (bound to
the nil pointer) as well as in the update clause. -/
theorem C5_counterexample :
    buildStatement "users" (.ptr 1 (user (intPtr 5 7) (strPtr 2 "Ana") (.nilPtr .string)))
        [.ptr 3 (user (intPtr 6 7) (strPtr 4 "Ana") (strPtr 8 "x@y.com"))] =
      .ok { query := "INSERT INTO users (id,name,email)",
            values := "VALUES ($1,$2,$3)",
            update := "ON CONFLICT (id) DO UPDATE SET id = $4, name = $5, email = $6",
            value := [intPtr 5 7, strPtr 2 "Ana", .nilPtr .string,
                      intPtr 5 7, strPtr 2 "Ana", .nilPtr .string],
            stmt := "INSERT INTO users (id,name,email) VALUES ($1,$2,$3) ON CONFLICT (id) DO UPDATE SET id = $4, name = $5, email = $6" } := by
  decide

theorem dropLastByte_open_paren (s : String) : dropLastByte (s ++ " (") = s ++ " " := by
  apply String.ext
  show (s.data ++ [' ', '(']).dropLast = s.data ++ [' ']
  have h : s.data ++ [' ', '('] = (s.data ++ [' ']) ++ ['('] := by simp
  rw [h, List.dropLast_concat]

/-- The statement `buildStatement` returns is the rendering of the included
fields of the record, whether there are any or not. -/
theorem buildStatement_render (tableName : String) (a : Nat) (nm : String) (fs : FieldValues)
    (params : List GoValue) (st : Statement)
    (h : buildStatement tableName (.ptr a (.struct nm fs)) params = .ok st) :
    st = renderStatement tableName fs (includedFields fs params) := by
  obtain ⟨hval, hstmt, hr⟩ := buildStatement_ok tableName a nm fs params st h
  cases hsel : includedFields fs params with
  | cons e es =>
    obtain ⟨hq, hv, hu⟩ := hr (by rw [hsel]; simp)
    rw [hsel] at hq hv hu hval
    rcases st with ⟨q, v, u, val, stm⟩
    simp only at hq hv hu hval hstmt
    subst hq hv hu hval hstmt
    rfl
  | nil =>
    unfold buildStatement at h
    simp only [ValueOf] at h
    cases hp : previousOf params with
    | error e => rw [hp] at h; simp at h
    | panic e => rw [hp] at h; simp at h
    | ok pv =>
      have hpv := previousOf_ok params pv hp
      rw [hp] at h
      simp only [getFieldValueByJSONTag, countNotNilFields, ValueOf] at h
      cases hs : searchFields fs "id" with
      | none => rw [hs] at h; simp at h
      | some idv =>
        rw [hs] at h
        simp only at h
        cases hl : upsertLoop (countFields fs) idv pv 0 fs.toList
            { query := "INSERT INTO " ++ tableName ++ " (", value := [], values := "VALUES (",
              update := "" } with
        | error e => rw [hl] at h; simp at h
        | panic e => rw [hl] at h; simp at h
        | ok b =>
          rw [hl] at h
          simp only [Outcome.ok.injEq] at h
          obtain ⟨hb, -⟩ := upsertLoop_ok (countFields fs) idv pv fs.toList 0 _ b hl
          rw [hpv] at hb
          have hsel2 : includedFrom (prevValOf params) 0 fs.toList = [] := hsel
          rw [hsel2] at hb
          simp only [List.foldl_nil] at hb
          subst hb
          subst h
          simp only [renderStatement, List.map_nil, List.append_nil]
          have h1 : dropLastByte ("INSERT INTO " ++ tableName ++ " (") =
              "INSERT INTO " ++ tableName ++ " " := dropLastByte_open_paren _
          have h2 : dropLastByte "VALUES (" = "VALUES " := by decide
          have h3 : "INSERT INTO " ++ tableName ++ " " ++ ")" = "INSERT INTO " ++ tableName ++ " )" := by
            rw [String.append_assoc ("INSERT INTO " ++ tableName)]
            rfl
          have h4 : "VALUES " ++ ")" = "VALUES )" := by decide
          simp only [h1, h2, h3, h4]

/-- C5, amended.  For every record and snapshot of the same shape for which a
statement is built, and every field that is a nil pointer in the record, the
statement is the rendering of the included fields of the record, and: when the
snapshot's field is a nil pointer too, the field is not among the included
fields, so that the statement has neither column nor assignment nor value for
it; when the snapshot's field holds a value, the field is among the included
fields, its column is in the insert column list and in the update clause, and
the nil pointer is bound at its place in both halves of the value list. -/
theorem C5_absent_field_follows_snapshot (tableName : String) (a : Nat) (nm : String)
    (fs : FieldValues) (a1 : Nat) (nm1 : String) (pfs : FieldValues) (st : Statement)
    (h : buildStatement tableName (.ptr a (.struct nm fs)) [.ptr a1 (.struct nm1 pfs)] = .ok st)
    (i : Nat) (f pf : Field)
    (hf : fs.toList[i]? = some f) (hpf : pfs.toList[i]? = some pf)
    (hshape : pf.value.typeOf = f.value.typeOf)
    (habsent : f.value.isNilPtr = true) :
    (pf.value.isNilPtr = true →
        st = renderStatement tableName fs (includedFields fs [.ptr a1 (.struct nm1 pfs)]) ∧
          (i, f) ∉ includedFields fs [.ptr a1 (.struct nm1 pfs)]) ∧
      (pf.value.isNilPtr = false →
        st = renderStatement tableName fs (includedFields fs [.ptr a1 (.struct nm1 pfs)]) ∧
          st.query = renderColumns tableName
            ((includedFields fs [.ptr a1 (.struct nm1 pfs)]).map fun e => columnNameOf e.2.tag) ∧
          st.update = renderUpdate
            ((includedFields fs [.ptr a1 (.struct nm1 pfs)]).map fun e =>
              (columnNameOf e.2.tag, updateIndex fs e.1)) ∧
          ∃ (t : GoType) (k : Nat),
            f.Interface = .nilPtr t ∧
              (includedFields fs [.ptr a1 (.struct nm1 pfs)])[k]? = some (i, f) ∧
              st.value[k]? = some (.nilPtr t) ∧
              st.value[(includedFields fs [.ptr a1 (.struct nm1 pfs)]).length + k]? =
                some (.nilPtr t)) := by
  have hrender := buildStatement_render tableName a nm fs _ st h
  obtain ⟨hvalue, -, hr⟩ := buildStatement_ok tableName a nm fs _ st h
  have hprev : prevValOf [GoValue.ptr a1 (.struct nm1 pfs)] = some (.struct nm1 pfs) := rfl
  cases hv : f.value with
  | nilPtr t =>
    rw [hv] at hshape
    have hfi : f.Interface = .nilPtr t := by simp [Field.Interface, hv, ValueOf]
    constructor
    · intro hpnil
      refine ⟨hrender, ?_⟩
      rw [mem_includedFields]
      rintro ⟨-, hinc⟩
      cases hpv : pf.value <;> rw [hpv] at hpnil <;> simp [GoValue.isNilPtr] at hpnil
      rename_i t1
      rw [hpv] at hshape
      simp only [GoValue.typeOf, GoType.ptr.injEq] at hshape
      subst hshape
      have hpi : pf.Interface = .nilPtr t1 := by simp [Field.Interface, hpv, ValueOf]
      simp [isIncluded, absentSkipped, hprev, hpf, habsent, hpi, hfi] at hinc
    · intro hpnil
      have hne : pf.Interface ≠ .nilPtr t := by
        cases hpv : pf.value <;> rw [hpv] at hpnil hshape <;>
          simp [GoValue.isNilPtr, GoValue.typeOf] at hpnil hshape
        simp [Field.Interface, hpv, ValueOf]
      have hinc : isIncluded (prevValOf [GoValue.ptr a1 (.struct nm1 pfs)]) i f = true := by
        simp [isIncluded, absentSkipped, hprev, hpf, habsent, hne, skipZeroId, hfi]
      have hmem : (i, f) ∈ includedFields fs [.ptr a1 (.struct nm1 pfs)] :=
        (mem_includedFields _ _ _ _).mpr ⟨hf, hinc⟩
      obtain ⟨hq, -, hu⟩ := hr (List.ne_nil_of_mem hmem)
      obtain ⟨k, hk⟩ := List.mem_iff_getElem?.mp hmem
      have hklt : k < (includedFields fs [.ptr a1 (.struct nm1 pfs)]).length := by
        by_contra hge
        rw [List.getElem?_eq_none (by omega)] at hk
        simp at hk
      have hmapk : ((includedFields fs [.ptr a1 (.struct nm1 pfs)]).map
          fun e => e.2.Interface)[k]? = some (.nilPtr t) := by
        rw [List.getElem?_map, hk]
        simp [hfi]
      refine ⟨hrender, hq, hu, t, k, hfi, hk, ?_, ?_⟩
      · rw [hvalue, List.getElem?_append_left (by simpa using hklt)]
        exact hmapk
      · rw [hvalue, List.getElem?_append_right (by simp)]
        simpa using hmapk
  | _ => rw [hv] at habsent; simp [GoValue.isNilPtr] at habsent

/-- C5, amended, at the record `User{ID: &7, Name: &"Ana", Email: nil}` with the
snapshot `User{ID: &7, Name: &"Ana", Email: &"x@y.com"}` and the field `Email`. -/
theorem C5_absent_field_follows_snapshot_witness :
    buildStatement "users" (.ptr 1 (.struct "User"
        (userFields (intPtr 5 7) (strPtr 2 "Ana") (.nilPtr .string))))
        [.ptr 3 (.struct "User" (userFields (intPtr 6 7) (strPtr 4 "Ana") (strPtr 8 "x@y.com")))] =
      .ok { query := "INSERT INTO users (id,name,email)",
            values := "VALUES ($1,$2,$3)",
            update := "ON CONFLICT (id) DO UPDATE SET id = $4, name = $5, email = $6",
            value := [intPtr 5 7, strPtr 2 "Ana", .nilPtr .string,
                      intPtr 5 7, strPtr 2 "Ana", .nilPtr .string],
            stmt := "INSERT INTO users (id,name,email) VALUES ($1,$2,$3) ON CONFLICT (id) DO UPDATE SET id = $4, name = $5, email = $6" } ∧
      (userFields (intPtr 5 7) (strPtr 2 "Ana") (.nilPtr .string)).toList[2]? =
        some ⟨"Email", "email", .nilPtr .string⟩ ∧
      (userFields (intPtr 6 7) (strPtr 4 "Ana") (strPtr 8 "x@y.com")).toList[2]? =
        some ⟨"Email", "email", strPtr 8 "x@y.com"⟩ ∧
      (strPtr 8 "x@y.com").typeOf = (GoValue.nilPtr .string).typeOf ∧
      (GoValue.nilPtr .string).isNilPtr = true ∧
      (strPtr 8 "x@y.com").isNilPtr = false ∧
      ∃ (t : GoType) (k : Nat),
        Field.Interface ⟨"Email", "email", .nilPtr .string⟩ = .nilPtr t ∧
          (includedFields (userFields (intPtr 5 7) (strPtr 2 "Ana") (.nilPtr .string))
            [.ptr 3 (.struct "User"
              (userFields (intPtr 6 7) (strPtr 4 "Ana") (strPtr 8 "x@y.com")))])[k]? =
            some (2, ⟨"Email", "email", .nilPtr .string⟩) ∧
          [intPtr 5 7, strPtr 2 "Ana", GoValue.nilPtr .string,
            intPtr 5 7, strPtr 2 "Ana", GoValue.nilPtr .string][k]? = some (.nilPtr t) ∧
          [intPtr 5 7, strPtr 2 "Ana", GoValue.nilPtr .string,
            intPtr 5 7, strPtr 2 "Ana", GoValue.nilPtr .string][
              (includedFields (userFields (intPtr 5 7) (strPtr 2 "Ana") (.nilPtr .string))
                [.ptr 3 (.struct "User"
                  (userFields (intPtr 6 7) (strPtr 4 "Ana") (strPtr 8 "x@y.com")))]).length + k]? =
            some (.nilPtr t) :=
  ⟨by decide, by decide, by decide, by decide, by decide, by decide,
    ((C5_absent_field_follows_snapshot "users" 1 "User"
      (userFields (intPtr 5 7) (strPtr 2 "Ana") (.nilPtr .string)) 3 "User"
      (userFields (intPtr 6 7) (strPtr 4 "Ana") (strPtr 8 "x@y.com"))
      { query := "INSERT INTO users (id,name,email)",
        values := "VALUES ($1,$2,$3)",
        update := "ON CONFLICT (id) DO UPDATE SET id = $4, name = $5, email = $6",
        value := [intPtr 5 7, strPtr 2 "Ana", .nilPtr .string,
                  intPtr 5 7, strPtr 2 "Ana", .nilPtr .string],
        stmt := "INSERT INTO users (id,name,email) VALUES ($1,$2,$3) ON CONFLICT (id) DO UPDATE SET id = $4, name = $5, email = $6" }
      (by decide) 2 ⟨"Email", "email", .nilPtr .string⟩ ⟨"Email", "email", strPtr 8 "x@y.com"⟩
      (by decide) (by decide) (by decide) (by decide)).2 (by decide)).2.2.2⟩

/-- C10, as stated, fails.  For the record
`User{ID: &7, Name: &"Ana", Email: &"z@y.com"}` with the snapshot
`User{ID: &7, Name: &"Ana", Email: &"x@y.com"}` the unchanged field `Name` is
in the insert column list and in the update clause. -/
theorem C10_counterexample :
    buildStatement "users" (.ptr 1 (user (intPtr 5 7) (strPtr 2 "Ana") (strPtr 7 "z@y.com")))
        [.ptr 3 (user (intPtr 6 7) (strPtr 4 "Ana") (strPtr 8 "x@y.com"))] =
      .ok { query := "INSERT INTO users (id,name,email)",
            values := "VALUES ($1,$2,$3)",
            update := "ON CONFLICT (id) DO UPDATE SET id = $5, name = $6, email = $7",
            value := [intPtr 5 7, strPtr 2 "Ana", strPtr 7 "z@y.com",
                      intPtr 5 7, strPtr 2 "Ana", strPtr 7 "z@y.com"],
            stmt := "INSERT INTO users (id,name,email) VALUES ($1,$2,$3) ON CONFLICT (id) DO UPDATE SET id = $5, name = $6, email = $7" } := by
  decide

/-- C10, amended.  For every record and snapshot for which a statement is
built, every present field (not a nil pointer), other than an `id` column
holding the `int` 0, is among the included fields whatever the snapshot holds
at its place, equal or different; the included fields are the columns of the
insert column list and of the update clause. -/
theorem C10_present_field_is_included (tableName : String) (a : Nat) (nm : String)
    (fs : FieldValues) (a1 : Nat) (nm1 : String) (pfs : FieldValues) (st : Statement)
    (h : buildStatement tableName (.ptr a (.struct nm fs)) [.ptr a1 (.struct nm1 pfs)] = .ok st)
    (i : Nat) (f : Field)
    (hf : fs.toList[i]? = some f)
    (hpresent : f.value.isNilPtr = false)
    (hid : skipZeroId (columnNameOf f.tag) f = false) :
    (i, f) ∈ includedFields fs [.ptr a1 (.struct nm1 pfs)] ∧
      st.query = renderColumns tableName
        ((includedFields fs [.ptr a1 (.struct nm1 pfs)]).map fun e => columnNameOf e.2.tag) ∧
      st.update = renderUpdate
        ((includedFields fs [.ptr a1 (.struct nm1 pfs)]).map fun e =>
          (columnNameOf e.2.tag, updateIndex fs e.1)) := by
  obtain ⟨-, -, hr⟩ := buildStatement_ok tableName a nm fs _ st h
  have hinc : isIncluded (prevValOf [GoValue.ptr a1 (.struct nm1 pfs)]) i f = true := by
    simp [isIncluded, absentSkipped, hpresent, hid]
  have hmem : (i, f) ∈ includedFields fs [.ptr a1 (.struct nm1 pfs)] :=
    (mem_includedFields _ _ _ _).mpr ⟨hf, hinc⟩
  obtain ⟨hq, -, hu⟩ := hr (List.ne_nil_of_mem hmem)
  exact ⟨hmem, hq, hu⟩

/-- C10, amended, at the record `User{ID: &7, Name: &"Ana", Email: &"z@y.com"}`
with the snapshot `User{ID: &7, Name: &"Ana", Email: &"x@y.com"}` and the
unchanged field `Name`. -/
theorem C10_present_field_is_included_witness :
    (userFields (intPtr 5 7) (strPtr 2 "Ana") (strPtr 7 "z@y.com")).toList[1]? =
        some ⟨"Name", "name", strPtr 2 "Ana"⟩ ∧
      (strPtr 2 "Ana").isNilPtr = false ∧
      skipZeroId (columnNameOf "name") ⟨"Name", "name", strPtr 2 "Ana"⟩ = false ∧
      ((1, (⟨"Name", "name", strPtr 2 "Ana"⟩ : Field)) ∈
          includedFields (userFields (intPtr 5 7) (strPtr 2 "Ana") (strPtr 7 "z@y.com"))
            [.ptr 3 (user (intPtr 6 7) (strPtr 4 "Ana") (strPtr 8 "x@y.com"))] ∧
        "INSERT INTO users (id,name,email)" = renderColumns "users"
          ((includedFields (userFields (intPtr 5 7) (strPtr 2 "Ana") (strPtr 7 "z@y.com"))
            [.ptr 3 (user (intPtr 6 7) (strPtr 4 "Ana") (strPtr 8 "x@y.com"))]).map
              fun e => columnNameOf e.2.tag) ∧
        "ON CONFLICT (id) DO UPDATE SET id = $5, name = $6, email = $7" = renderUpdate
          ((includedFields (userFields (intPtr 5 7) (strPtr 2 "Ana") (strPtr 7 "z@y.com"))
            [.ptr 3 (user (intPtr 6 7) (strPtr 4 "Ana") (strPtr 8 "x@y.com"))]).map fun e =>
              (columnNameOf e.2.tag,
                updateIndex (userFields (intPtr 5 7) (strPtr 2 "Ana") (strPtr 7 "z@y.com"))
                  e.1))) :=
  ⟨by decide, by decide, by decide,
    C10_present_field_is_included "users" 1 "User"
      (userFields (intPtr 5 7) (strPtr 2 "Ana") (strPtr 7 "z@y.com")) 3 "User"
      (userFields (intPtr 6 7) (strPtr 4 "Ana") (strPtr 8 "x@y.com"))
      { query := "INSERT INTO users (id,name,email)",
        values := "VALUES ($1,$2,$3)",
        update := "ON CONFLICT (id) DO UPDATE SET id = $5, name = $6, email = $7",
        value := [intPtr 5 7, strPtr 2 "Ana", strPtr 7 "z@y.com",
                  intPtr 5 7, strPtr 2 "Ana", strPtr 7 "z@y.com"],
        stmt := "INSERT INTO users (id,name,email) VALUES ($1,$2,$3) ON CONFLICT (id) DO UPDATE SET id = $5, name = $6, email = $7" }
      (by decide) 1 ⟨"Name", "name", strPtr 2 "Ana"⟩ (by decide) (by decide) (by decide)⟩

/-! ### Identity back-fill -/

theorem setID_ok (addr : Nat) (w : GoValue) :
    ∀ (fs fs1 : FieldValues), setID (.ptr addr w) fs = .ok fs1 →
      ∃ (k : Nat) (f : Field) (v1 : GoValue),
        fs.toList[k]? = some f ∧ f.name = "ID" ∧
          (∀ j g, j < k → fs.toList[j]? = some g → g.name ≠ "ID") ∧
          ValueOf v1 = .ptr addr w ∧
          fs1.toList = fs.toList.set k ⟨f.name, f.tag, v1⟩
  | .nil, fs1, h => by simp [setID] at h
  | .cons name tag old rest, fs1, h => by
    unfold setID at h
    by_cases hn : name = "ID"
    · rw [if_pos hn] at h
      have key : ∀ v1, ValueOf v1 = .ptr addr w → fs1 = .cons name tag v1 rest →
          ∃ (k : Nat) (f : Field) (v1 : GoValue),
            (FieldValues.cons name tag old rest).toList[k]? = some f ∧ f.name = "ID" ∧
              (∀ j g, j < k → (FieldValues.cons name tag old rest).toList[j]? = some g →
                g.name ≠ "ID") ∧
              ValueOf v1 = .ptr addr w ∧
              fs1.toList = (FieldValues.cons name tag old rest).toList.set k ⟨f.name, f.tag, v1⟩ := by
        intro v1 hv1 hfs1
        refine ⟨0, ⟨name, tag, old⟩, v1, ?_, hn, ?_, hv1, ?_⟩
        · simp [FieldValues.toList]
        · intro j g hj; omega
        · subst hfs1
          simp [FieldValues.toList]
      cases old with
      | nilPtr t =>
        cases t <;> simp at h
        exact key (.ptr addr w) rfl h.symm
      | ptr a0 v0 =>
        cases v0 <;> simp at h
        exact key (.ptr addr w) rfl h.symm
      | iface v0 =>
        simp at h
        exact key (.iface (.ptr addr w)) rfl h.symm
      | _ => simp at h
    · rw [if_neg hn] at h
      cases hr : setID (.ptr addr w) rest with
      | error e => rw [hr] at h; simp at h
      | panic e => rw [hr] at h; simp at h
      | ok rest1 =>
        rw [hr] at h
        simp only [Outcome.ok.injEq] at h
        obtain ⟨k, f, v1, hk, hname, hfirst, hv1, hset⟩ := setID_ok addr w rest rest1 hr
        refine ⟨k + 1, f, v1, ?_, hname, ?_, hv1, ?_⟩
        · simpa [FieldValues.toList] using hk
        · intro j g hj hg
          cases j with
          | zero =>
            simp [FieldValues.toList] at hg
            rw [← hg]
            exact hn
          | succ j =>
            exact hfirst j g (by omega) (by simpa [FieldValues.toList] using hg)
        · subst h
          simp [FieldValues.toList, hset]

theorem setID_settable (v : GoValue) :
    ∀ (fs : FieldValues), idFieldSettable fs = true → ∃ fs1, setID v fs = .ok fs1
  | .nil, h => by simp [idFieldSettable] at h
  | .cons name tag old rest, h => by
    unfold idFieldSettable at h
    unfold setID
    by_cases hn : name = "ID"
    · rw [if_pos hn] at h
      rw [if_pos hn]
      cases old with
      | nilPtr t => cases t <;> simp at h ⊢
      | ptr a0 v0 => cases v0 <;> simp at h ⊢
      | iface v0 => simp
      | _ => simp at h
    · rw [if_neg hn] at h
      rw [if_neg hn]
      obtain ⟨rest1, hr⟩ := setID_settable v rest h
      rw [hr]
      exact ⟨_, rfl⟩

theorem setID_not_settable (v : GoValue) :
    ∀ (fs : FieldValues), idFieldSettable fs = false → ∃ msg, setID v fs = .panic msg
  | .nil, _ => ⟨_, rfl⟩
  | .cons name tag old rest, h => by
    unfold idFieldSettable at h
    unfold setID
    by_cases hn : name = "ID"
    · rw [if_pos hn] at h
      rw [if_pos hn]
      cases old with
      | nilPtr t => cases t <;> simp at h ⊢
      | ptr a0 v0 => cases v0 <;> simp at h ⊢
      | iface v0 => simp at h
      | _ => simp
    · rw [if_neg hn] at h
      rw [if_neg hn]
      obtain ⟨msg, hr⟩ := setID_not_settable v rest h
      rw [hr]
      exact ⟨_, rfl⟩

/-- C6, as stated, fails, on statements whose placeholders are numbered
1 to 2N.  (1) The record `User{ID: &7, Name: &"Ana", Email: nil}` with the
snapshot `User{ID: &7, Name: &"Ana", Email: &"x@y.com"}`, on a store whose
`LastInsertId` returns 0 and an error, ends with `ID` pointing to 0 and not to
the 7 the caller supplied.  (2) The record
`Account{Key: &7, ID: &3, Name: "Ana"}`, whose identity column `id` is held by
`Key`, on a store that reports the identifier 42, keeps `Key` at 7 and has the
other field `ID` changed to 42.  (3) The record `Item{Id: &7, Name: "Ana"}`,
which has no field named `ID`, is executed and then the call panics. -/
theorem C6_counterexample :
    InsertOrUpdateStruct storeWithoutLastInsertId 9 "users"
        (.ptr 1 (user (intPtr 5 7) (strPtr 2 "Ana") (.nilPtr .string)))
        [.ptr 3 (user (intPtr 6 7) (strPtr 4 "Ana") (strPtr 8 "x@y.com"))] =
      { outcome := .ok { lastInsertId := 0,
                         lastInsertIdErr := some "LastInsertId is not supported by this driver",
                         rowsAffected := 1 },
        executed := [("INSERT INTO users (id,name,email) VALUES ($1,$2,$3) ON CONFLICT (id) DO UPDATE SET id = $4, name = $5, email = $6",
                      [intPtr 5 7, strPtr 2 "Ana", .nilPtr .string,
                       intPtr 5 7, strPtr 2 "Ana", .nilPtr .string])],
        record := user (intPtr 9 0) (strPtr 2 "Ana") (.nilPtr .string) } ∧
      InsertOrUpdateStruct (storeReporting 42) 9 "accounts"
          (.ptr 1 (.struct "Account" (accountFields (intPtr 5 7) (intPtr 6 3) (.string "Ana"))))
          [] =
        { outcome := .ok { lastInsertId := 42, lastInsertIdErr := none, rowsAffected := 1 },
          executed := [("INSERT INTO accounts (id,ref,name) VALUES ($1,$2,$3) ON CONFLICT (id) DO UPDATE SET id = $4, ref = $5, name = $6",
                        [intPtr 5 7, intPtr 6 3, .string "Ana",
                         intPtr 5 7, intPtr 6 3, .string "Ana"])],
          record := .struct "Account" (accountFields (intPtr 5 7) (intPtr 9 42) (.string "Ana")) } ∧
      InsertOrUpdateStruct (storeReporting 42) 9 "items"
          (.ptr 1 (.struct "Item" (itemFields (intPtr 5 7) (.string "Ana")))) [] =
        { outcome := .panic "reflect: call of reflect.Value.Set on zero Value",
          executed := [("INSERT INTO items (id,name) VALUES ($1,$2) ON CONFLICT (id) DO UPDATE SET id = $3, name = $4",
                        [intPtr 5 7, .string "Ana", intPtr 5 7, .string "Ana"])],
          record := .struct "Item" (itemFields (intPtr 5 7) (.string "Ana")) } := by
  decide

/-- C6, amended.  For every record on which `InsertOrUpdateStruct` executes its
statement successfully: when the record has a field named `ID` of type `*int`
or of an interface type, the call returns the execution result, the first
field of that name, whatever its json tag, afterwards holds a pointer to a
fresh `int` carrying the number `LastInsertId` returned, be it the identifier
the store assigned or the number returned next to an error, so that the value
the caller supplied is overwritten in both cases, and no other field of the
record is changed; when the record has no such field, the call panics at line
273, after the statement has been executed, and the record is left as it
was. -/
theorem C6_identity_set_to_last_insert_id (db : DB) (newAddr : Nat) (tableName : String)
    (a : Nat) (nm : String) (fs : FieldValues) (params : List GoValue) (st : Statement)
    (res : SqlResult)
    (hb : buildStatement tableName (.ptr a (.struct nm fs)) params = .ok st)
    (he : db.exec st.stmt st.value = .ok res) :
    (idFieldSettable fs = true →
        ∃ (fs1 : FieldValues) (k : Nat) (f : Field) (v1 : GoValue),
          InsertOrUpdateStruct db newAddr tableName (.ptr a (.struct nm fs)) params =
              { outcome := .ok res, executed := [(st.stmt, st.value)],
                record := .struct nm fs1 } ∧
            fs.toList[k]? = some f ∧ f.name = "ID" ∧
            (∀ j g, j < k → fs.toList[j]? = some g → g.name ≠ "ID") ∧
            ValueOf v1 = .ptr newAddr (.int res.lastInsertId) ∧
            fs1.toList = fs.toList.set k ⟨f.name, f.tag, v1⟩) ∧
      (idFieldSettable fs = false →
        ∃ msg,
          InsertOrUpdateStruct db newAddr tableName (.ptr a (.struct nm fs)) params =
            { outcome := .panic msg, executed := [(st.stmt, st.value)],
              record := .struct nm fs }) := by
  constructor
  · intro hset
    obtain ⟨fs1, hs⟩ := setID_settable (.ptr newAddr (.int res.lastInsertId)) fs hset
    obtain ⟨k, f, v1, hk, hname, hfirst, hv1, hlist⟩ := setID_ok newAddr _ fs fs1 hs
    refine ⟨fs1, k, f, v1, ?_, hk, hname, hfirst, hv1, hlist⟩
    simp only [InsertOrUpdateStruct, hb, he, ValueOf, hs]
  · intro hset
    obtain ⟨msg, hs⟩ := setID_not_settable (.ptr newAddr (.int res.lastInsertId)) fs hset
    refine ⟨msg, ?_⟩
    simp only [InsertOrUpdateStruct, hb, he, ValueOf, hs]

/-- C6, amended, at the record `User{ID: &7, Name: &"Ana", Email: nil}` with the
snapshot `User{ID: &7, Name: &"Ana", Email: &"x@y.com"}` on a store without
`LastInsertId`, and at the record `Item{Id: &7, Name: "Ana"}` on a store that
reports the identifier 42. -/
theorem C6_identity_set_to_last_insert_id_witness :
    (buildStatement "users" (.ptr 1 (.struct "User"
          (userFields (intPtr 5 7) (strPtr 2 "Ana") (.nilPtr .string))))
          [.ptr 3 (user (intPtr 6 7) (strPtr 4 "Ana") (strPtr 8 "x@y.com"))] =
        .ok { query := "INSERT INTO users (id,name,email)",
              values := "VALUES ($1,$2,$3)",
              update := "ON CONFLICT (id) DO UPDATE SET id = $4, name = $5, email = $6",
              value := [intPtr 5 7, strPtr 2 "Ana", .nilPtr .string,
                        intPtr 5 7, strPtr 2 "Ana", .nilPtr .string],
              stmt := "INSERT INTO users (id,name,email) VALUES ($1,$2,$3) ON CONFLICT (id) DO UPDATE SET id = $4, name = $5, email = $6" } ∧
      idFieldSettable (userFields (intPtr 5 7) (strPtr 2 "Ana") (.nilPtr .string)) = true ∧
      ∃ (fs1 : FieldValues) (k : Nat) (f : Field) (v1 : GoValue),
        InsertOrUpdateStruct storeWithoutLastInsertId 9 "users" (.ptr 1 (.struct "User"
            (userFields (intPtr 5 7) (strPtr 2 "Ana") (.nilPtr .string))))
            [.ptr 3 (user (intPtr 6 7) (strPtr 4 "Ana") (strPtr 8 "x@y.com"))] =
          { outcome := .ok { lastInsertId := 0,
                             lastInsertIdErr := some "LastInsertId is not supported by this driver",
                             rowsAffected := 1 },
            executed := [("INSERT INTO users (id,name,email) VALUES ($1,$2,$3) ON CONFLICT (id) DO UPDATE SET id = $4, name = $5, email = $6",
                          [intPtr 5 7, strPtr 2 "Ana", .nilPtr .string,
                           intPtr 5 7, strPtr 2 "Ana", .nilPtr .string])],
            record := .struct "User" fs1 } ∧
          (userFields (intPtr 5 7) (strPtr 2 "Ana") (.nilPtr .string)).toList[k]? = some f ∧
          f.name = "ID" ∧
          (∀ j g, j < k →
            (userFields (intPtr 5 7) (strPtr 2 "Ana") (.nilPtr .string)).toList[j]? = some g →
            g.name ≠ "ID") ∧
          ValueOf v1 = .ptr 9 (.int 0) ∧
          fs1.toList = (userFields (intPtr 5 7) (strPtr 2 "Ana") (.nilPtr .string)).toList.set k
            ⟨f.name, f.tag, v1⟩) ∧
      (idFieldSettable (itemFields (intPtr 5 7) (.string "Ana")) = false ∧
        ∃ msg,
          InsertOrUpdateStruct (storeReporting 42) 9 "items"
              (.ptr 1 (.struct "Item" (itemFields (intPtr 5 7) (.string "Ana")))) [] =
            { outcome := .panic msg,
              executed := [("INSERT INTO items (id,name) VALUES ($1,$2) ON CONFLICT (id) DO UPDATE SET id = $3, name = $4",
                            [intPtr 5 7, .string "Ana", intPtr 5 7, .string "Ana"])],
              record := .struct "Item" (itemFields (intPtr 5 7) (.string "Ana")) }) :=
  ⟨⟨by decide, by decide,
      (C6_identity_set_to_last_insert_id storeWithoutLastInsertId 9 "users" 1 "User"
        (userFields (intPtr 5 7) (strPtr 2 "Ana") (.nilPtr .string))
        [.ptr 3 (user (intPtr 6 7) (strPtr 4 "Ana") (strPtr 8 "x@y.com"))]
        { query := "INSERT INTO users (id,name,email)",
          values := "VALUES ($1,$2,$3)",
          update := "ON CONFLICT (id) DO UPDATE SET id = $4, name = $5, email = $6",
          value := [intPtr 5 7, strPtr 2 "Ana", .nilPtr .string,
                    intPtr 5 7, strPtr 2 "Ana", .nilPtr .string],
          stmt := "INSERT INTO users (id,name,email) VALUES ($1,$2,$3) ON CONFLICT (id) DO UPDATE SET id = $4, name = $5, email = $6" }
        { lastInsertId := 0,
          lastInsertIdErr := some "LastInsertId is not supported by this driver",
          rowsAffected := 1 }
        (by decide) rfl).1 (by decide)⟩,
    ⟨by decide,
      (C6_identity_set_to_last_insert_id (storeReporting 42) 9 "items" 1 "Item"
        (itemFields (intPtr 5 7) (.string "Ana")) []
        { query := "INSERT INTO items (id,name)",
          values := "VALUES ($1,$2)",
          update := "ON CONFLICT (id) DO UPDATE SET id = $3, name = $4",
          value := [intPtr 5 7, .string "Ana", intPtr 5 7, .string "Ana"],
          stmt := "INSERT INTO items (id,name) VALUES ($1,$2) ON CONFLICT (id) DO UPDATE SET id = $3, name = $4" }
        { lastInsertId := 42, lastInsertIdErr := none, rowsAffected := 1 }
        (by decide) rfl).2 (by decide)⟩⟩

/-! ### Tag lookup -/

mutual
theorem searchFields_isSome :
    ∀ (fs : FieldValues) (t : String), (searchFields fs t).isSome = hasFieldTagged fs t
  | .nil, t => by simp [searchFields, hasFieldTagged]
  | .cons name tag v rest, t => by
    have h1 := searchNested_isSome v t
    have h2 := searchFields_isSome rest t
    unfold searchFields hasFieldTagged
    by_cases ht : tag = t
    · simp [ht]
    · rw [if_neg ht, ← h1, ← h2]
      cases hs : searchNested v t <;> simp [ht]
theorem searchNested_isSome :
    ∀ (v : GoValue) (t : String), (searchNested v t).isSome = nestedHasFieldTagged v t
  | .struct _ fs, t => by
    have h := searchFields_isSome fs t
    simpa [searchNested, nestedHasFieldTagged] using h
  | .nil, t => by simp [searchNested, nestedHasFieldTagged]
  | .bool _, t => by simp [searchNested, nestedHasFieldTagged]
  | .int _, t => by simp [searchNested, nestedHasFieldTagged]
  | .int64 _, t => by simp [searchNested, nestedHasFieldTagged]
  | .string _, t => by simp [searchNested, nestedHasFieldTagged]
  | .iface _, t => by simp [searchNested, nestedHasFieldTagged]
  | .nilPtr _, t => by simp [searchNested, nestedHasFieldTagged]
  | .ptr _ _, t => by simp [searchNested, nestedHasFieldTagged]
  | .slice _ _, t => by simp [searchNested, nestedHasFieldTagged]
end

/-- C7.  For every record whose type has no field with json tag `id`, searching
the declared fields in order and the fields of nested struct-typed fields,
`InsertOrUpdateStruct`, called without or with a snapshot, returns the error
of the tag lookup and no result, having executed no statement and leaving the
record as it was; and when such a field exists the tag lookup returns a value. -/
theorem C7_missing_id_tag_is_an_error (db : DB) (newAddr : Nat) (tableName : String) (a : Nat)
    (nm : String) (fs : FieldValues) (a1 : Nat) (prev : GoValue) :
    (hasFieldTagged fs "id" = false →
        InsertOrUpdateStruct db newAddr tableName (.ptr a (.struct nm fs)) [] =
            { outcome := .error "field with JSON tag id not found", executed := [],
              record := .struct nm fs } ∧
          InsertOrUpdateStruct db newAddr tableName (.ptr a (.struct nm fs)) [.ptr a1 prev] =
            { outcome := .error "field with JSON tag id not found", executed := [],
              record := .struct nm fs }) ∧
      (hasFieldTagged fs "id" = true →
        ∃ v, getFieldValueByJSONTag (.ptr a (.struct nm fs)) "id" = .ok v) := by
  have hsome := searchFields_isSome fs "id"
  constructor
  · intro hno
    rw [hno] at hsome
    have hnone : searchFields fs "id" = none := by
      cases hs : searchFields fs "id" with
      | none => rfl
      | some v => rw [hs] at hsome; simp at hsome
    have hb : ∀ params pv, previousOf params = .ok pv →
        buildStatement tableName (.ptr a (.struct nm fs)) params =
          .error "field with JSON tag id not found" := by
      intro params pv hp
      simp only [buildStatement, ValueOf, hp, getFieldValueByJSONTag, hnone]
      rfl
    constructor
    · simp only [InsertOrUpdateStruct, hb [] none rfl, ValueOf]
    · simp only [InsertOrUpdateStruct, hb [.ptr a1 prev] (some prev) rfl, ValueOf]
  · intro hyes
    rw [hyes] at hsome
    cases hs : searchFields fs "id" with
    | none => rw [hs] at hsome; simp at hsome
    | some v => exact ⟨v, by simp [getFieldValueByJSONTag, ValueOf, hs]⟩

/-- C7 at the record `struct Item { Name *string }` with json tag `name`, which
has no `id` field, and at a `User` record, which has one. -/
theorem C7_missing_id_tag_is_an_error_witness :
    (hasFieldTagged (.cons "Name" "name" (strPtr 2 "Ana") .nil) "id" = false ∧
        InsertOrUpdateStruct storeWithoutLastInsertId 9 "items"
            (.ptr 1 (.struct "Item" (.cons "Name" "name" (strPtr 2 "Ana") .nil))) [] =
          { outcome := .error "field with JSON tag id not found", executed := [],
            record := .struct "Item" (.cons "Name" "name" (strPtr 2 "Ana") .nil) }) ∧
      (hasFieldTagged (userFields (intPtr 5 7) (strPtr 2 "Ana") (.nilPtr .string)) "id" = true ∧
        ∃ v, getFieldValueByJSONTag
          (.ptr 1 (.struct "User" (userFields (intPtr 5 7) (strPtr 2 "Ana") (.nilPtr .string))))
          "id" = .ok v) :=
  ⟨⟨by decide,
      ((C7_missing_id_tag_is_an_error storeWithoutLastInsertId 9 "items" 1 "Item"
        (.cons "Name" "name" (strPtr 2 "Ana") .nil) 3 .nil).1 (by decide)).1⟩,
    ⟨by decide,
      (C7_missing_id_tag_is_an_error storeWithoutLastInsertId 9 "users" 1 "User"
        (userFields (intPtr 5 7) (strPtr 2 "Ana") (.nilPtr .string)) 3 .nil).2 (by decide)⟩⟩

/-! ### Target checks of `Row` and `Query` -/

theorem Row_rejects_other_targets (db : DB) (project : RowMap → Option String) (q : String)
    (fields : GoValue) (params : List GoValue)
    (h : ∀ a nm fs, ValueOf fields ≠ .ptr a (.struct nm fs)) :
    (Row db project q fields params).outcome = .error "fields must be a pointer to a struct" ∧
      (Row db project q fields params).queries = [] := by
  have hnot : notPtrToStruct (ValueOf fields) = true := by
    cases hv : ValueOf fields with
    | ptr a v =>
      cases v with
      | struct nm fs => exact absurd hv (h a nm fs)
      | _ => rfl
    | _ => rfl
  simp [Row, hnot]

theorem Row_queries_on_record_reference (db : DB) (project : RowMap → Option String)
    (q : String) (a : Nat) (nm : String) (fs : FieldValues) (params : List GoValue) :
    (Row db project q (.ptr a (.struct nm fs)) params).queries = [(q, params)] := by
  simp only [Row, ValueOf, notPtrToStruct, GoValue.Kind, GoValue.Elem]
  simp only [bne_self_eq_false, Bool.or_self, Bool.false_eq_true, if_false]
  cases db.query q params with
  | error e => rfl
  | ok rows =>
    simp only
    cases rowLoop fs.typesOf.toList rows.columns rows.rows [] with
    | ok m => simp only; cases project m <;> rfl
    | error e => rfl
    | panic e => rfl

/-- C8 (code defect).  `Query` called with a pointer to an `int`, which is not
a reference to a sequence of records, panics in `reflect.Value.Elem` at line
123 instead of returning an error; no query has been executed. -/
theorem C8_query_panics_on_pointer_to_int (db : DB) :
    (Query db "SELECT 1" (intPtr 1 0) []).outcome =
        .panic "reflect: call of reflect.Value.Elem on non-pointer Value" ∧
      (Query db "SELECT 1" (intPtr 1 0) []).queries = [] :=
  ⟨rfl, rfl⟩

/-! ### Row decoding -/

theorem RowMap.get?_set_self (m : RowMap) (k : String) (d : Decoded) :
    (m.set k d).get? k = some d := by
  simp [RowMap.set, RowMap.get?, List.lookup]

theorem lookup_filter_ne (k1 k : String) (hne : k1 ≠ k) (m : RowMap) :
    List.lookup k1 (m.filter fun e => e.1 != k) = List.lookup k1 m := by
  induction m with
  | nil => rfl
  | cons e rest ih =>
    obtain ⟨ek, ev⟩ := e
    by_cases hek : ek = k
    · subst hek
      have h1 : (k1 == ek) = false := by simpa using hne
      simp [List.filter, List.lookup, h1, ih]
    · have h2 : (ek != k) = true := by simpa using hek
      simp only [List.filter, h2, List.lookup, ih]

theorem RowMap.get?_set_ne (m : RowMap) (k k1 : String) (d : Decoded) (hne : k1 ≠ k) :
    (m.set k d).get? k1 = m.get? k1 := by
  have h1 : (k1 == k) = false := by simpa using hne
  simp only [RowMap.set, RowMap.get?, List.lookup, h1]
  exact lookup_filter_ne k1 k hne m

theorem decodeColumn_ok_set (fieldTypes : List GoType) (values : List DriverValue) (i : Nat)
    (v : String) (m m1 : RowMap) (h : decodeColumn fieldTypes values i v m = .ok m1) :
    ∃ d, m1 = m.set v d := by
  unfold decodeColumn at h
  cases hv : values[i]? with
  | none => rw [hv] at h; simp at h
  | some d =>
    rw [hv] at h
    cases ht : fieldTypes[i]? with
    | none =>
      cases d <;> simp [ht] at h
      exact ⟨_, h.symm⟩
    | some t =>
      by_cases hb : t.Name = "bool"
      · cases d <;> simp [ht, hb] at h <;> exact ⟨_, h.symm⟩
      · cases d <;> simp [ht, hb] at h <;> exact ⟨_, h.symm⟩

theorem decodeColumn_bool (fieldTypes : List GoType) (values : List DriverValue) (i : Nat)
    (v : String) (n : Int) (m : RowMap)
    (hfield : fieldTypes[i]? = some .bool) (hval : values[i]? = some (.int64 n)) :
    decodeColumn fieldTypes values i v m = .ok (m.set v (.truth (decide (n ≠ 0)))) := by
  simp [decodeColumn, hfield, hval, GoType.Name]

theorem decodeColumns_preserve (fieldTypes : List GoType) (values : List DriverValue)
    (v : String) :
    ∀ (cols : List String) (k : Nat) (m m1 : RowMap),
      decodeColumns fieldTypes values k cols m = .ok m1 → v ∉ cols → m1.get? v = m.get? v := by
  intro cols
  induction cols with
  | nil =>
    intro k m m1 h _
    simp [decodeColumns] at h
    rw [h]
  | cons c rest ih =>
    intro k m m1 h hnot
    unfold decodeColumns at h
    cases hc : decodeColumn fieldTypes values k c m with
    | error e => rw [hc] at h; simp at h
    | panic e => rw [hc] at h; simp at h
    | ok m2 =>
      rw [hc] at h
      simp only at h
      obtain ⟨d, hd⟩ := decodeColumn_ok_set fieldTypes values k c m m2 hc
      have hvc : v ≠ c := fun hEq => hnot (by simp [hEq])
      have hrest : v ∉ rest := fun hmem => hnot (List.mem_cons_of_mem _ hmem)
      rw [ih (k + 1) m2 m1 h hrest, hd, RowMap.get?_set_ne m c v d hvc]

theorem decodeColumns_bool (fieldTypes : List GoType) (values : List DriverValue)
    (v : String) (n : Int) :
    ∀ (cols : List String) (k j : Nat) (m m1 : RowMap),
      decodeColumns fieldTypes values k cols m = .ok m1 →
        cols[j]? = some v → fieldTypes[k + j]? = some .bool →
        values[k + j]? = some (.int64 n) →
        (∀ j1, j < j1 → cols[j1]? ≠ some v) →
        m1.get? v = some (.truth (decide (n ≠ 0))) := by
  intro cols
  induction cols with
  | nil => intro k j m m1 _ hj; simp at hj
  | cons c rest ih =>
    intro k j m m1 h hj hfield hval hlast
    unfold decodeColumns at h
    cases hc : decodeColumn fieldTypes values k c m with
    | error e => rw [hc] at h; simp at h
    | panic e => rw [hc] at h; simp at h
    | ok m2 =>
      rw [hc] at h
      simp only at h
      cases j with
      | zero =>
        simp at hj
        subst hj
        have hstep := decodeColumn_bool fieldTypes values k c n m hfield hval
        rw [hstep] at hc
        simp only [Outcome.ok.injEq] at hc
        have hnot : c ∉ rest := by
          intro hmem
          obtain ⟨j1, hj1⟩ := List.mem_iff_getElem?.mp hmem
          exact hlast (j1 + 1) (by omega) (by simpa using hj1)
        rw [decodeColumns_preserve fieldTypes values c rest (k + 1) m2 m1 h hnot, ← hc]
        exact RowMap.get?_set_self m c _
      | succ j =>
        have hj2 : rest[j]? = some v := by simpa using hj
        have e1 : k + 1 + j = k + (j + 1) := by omega
        refine ih (k + 1) j m2 m1 h hj2 (by rw [e1]; exact hfield) (by rw [e1]; exact hval) ?_
        intro j1 hlt
        have := hlast (j1 + 1) (by omega)
        simpa using this

theorem decodeRow_bool (fieldTypes : List GoType) (columNames : List String)
    (row : List DriverValue) (i : Nat) (v : String) (n : Int)
    (hcol : columNames[i]? = some v) (hfield : fieldTypes[i]? = some .bool)
    (hval : row[i]? = some (.int64 n)) (hlast : ∀ j, i < j → columNames[j]? ≠ some v)
    (m m1 : RowMap) (h : decodeRow fieldTypes columNames row m = .ok m1) :
    m1.get? v = some (.truth (decide (n ≠ 0))) := by
  unfold decodeRow at h
  unfold scan at h
  by_cases hlen : row.length = fieldTypes.length
  · rw [if_pos hlen] at h
    simp only at h
    exact decodeColumns_bool fieldTypes row v n columNames 0 i m m1 h hcol
      (by simpa using hfield) (by simpa using hval) hlast
  · rw [if_neg hlen] at h
    simp at h

theorem rowLoop_append (fieldTypes : List GoType) (columNames : List String) :
    ∀ (xs ys : List (List DriverValue)) (m : RowMap),
      rowLoop fieldTypes columNames (xs ++ ys) m =
        match rowLoop fieldTypes columNames xs m with
        | .ok m1 => rowLoop fieldTypes columNames ys m1
        | .error e => .error e
        | .panic e => .panic e := by
  intro xs
  induction xs with
  | nil => intro ys m; simp [rowLoop]
  | cons x rest ih =>
    intro ys m
    simp only [List.cons_append, rowLoop]
    cases decodeRow fieldTypes columNames x m with
    | ok m1 => simp only; exact ih ys m1
    | error e => rfl
    | panic e => rfl

theorem rowLoop_last (fieldTypes : List GoType) (columNames : List String)
    (rowsList : List (List DriverValue)) (r : Nat) (row : List DriverValue)
    (hrow : rowsList[r]? = some row) (m0 m1 : RowMap)
    (h : rowLoop fieldTypes columNames (rowsList.take (r + 1)) m0 = .ok m1) :
    ∃ m, decodeRow fieldTypes columNames row m = .ok m1 := by
  rw [List.take_succ, hrow, rowLoop_append] at h
  cases hpre : rowLoop fieldTypes columNames (rowsList.take r) m0 with
  | error e => rw [hpre] at h; simp at h
  | panic e => rw [hpre] at h; simp at h
  | ok m =>
    rw [hpre] at h
    simp only [Option.toList, rowLoop] at h
    refine ⟨m, ?_⟩
    cases hd : decodeRow fieldTypes columNames row m with
    | ok m2 => rw [hd] at h; simpa using h
    | error e => rw [hd] at h; simp at h
    | panic e => rw [hd] at h; simp at h

theorem queryLoop_ok (fieldTypes : List GoType) (columNames : List String) :
    ∀ (rowsList : List (List DriverValue)) (ms ms1 : List RowMap),
      queryLoop fieldTypes columNames rowsList ms = .ok ms1 →
        ∃ tail : List RowMap, ms1 = ms ++ tail ∧
          ∀ (r : Nat) (row : List DriverValue), rowsList[r]? = some row →
            ∃ m : RowMap, tail[r]? = some m ∧
              decodeRow fieldTypes columNames row [] = .ok m := by
  intro rowsList
  induction rowsList with
  | nil =>
    intro ms ms1 h
    simp [queryLoop] at h
    exact ⟨[], by simp [h], by intro r row hr; simp at hr⟩
  | cons x rest ih =>
    intro ms ms1 h
    unfold queryLoop at h
    cases hd : decodeRow fieldTypes columNames x [] with
    | error e => rw [hd] at h; simp at h
    | panic e => rw [hd] at h; simp at h
    | ok m1 =>
      rw [hd] at h
      simp only at h
      obtain ⟨tail, htail, hrows⟩ := ih (ms ++ [m1]) ms1 h
      refine ⟨m1 :: tail, by simp [htail], ?_⟩
      intro r row hr
      cases r with
      | zero =>
        simp at hr
        subst hr
        exact ⟨m1, by simp, hd⟩
      | succ r =>
        obtain ⟨m, hm, hdm⟩ := hrows r row (by simpa using hr)
        exact ⟨m, by simpa using hm, hdm⟩

/-- C9, as stated, fails.  `Query` and `Row` on a result set with two columns
both named `active`, both decoded into `bool` fields, and the row `1, 0`: the
column at position 0 holds the nonzero integer 1, and the mapping of the row
binds `active` to false, the value of the later column. -/
theorem C9_counterexample :
    Query duplicateColumnStore "SELECT u.active, o.active FROM users u JOIN orgs o ON o.id = u.org"
        (.ptr 1 (.ptr 2 (.slice (.struct "Pair" pairType) (some 0)))) [] =
      { outcome := .ok (),
        queries := [("SELECT u.active, o.active FROM users u JOIN orgs o ON o.id = u.org", [])],
        result := [[("active", .truth false)]] } ∧
      Row duplicateColumnStore (fun _ => none)
          "SELECT u.active, o.active FROM users u JOIN orgs o ON o.id = u.org"
          (.ptr 1 (.struct "Pair"
            (.cons "UserActive" "user_active" (.bool false)
              (.cons "OrgActive" "org_active" (.bool false) .nil)))) [] =
        { outcome := .ok (),
          queries := [("SELECT u.active, o.active FROM users u JOIN orgs o ON o.id = u.org", [])],
          result := [("active", .truth false)] } ∧
      RowMap.get? [("active", .truth false)] "active" ≠ some (.truth (decide ((1 : Int) ≠ 0))) :=
  ⟨rfl, rfl, by decide⟩

/-- C9, amended.  For every result row decoded by `Row` or `Query` and every
column at ordinal position `i` whose `i`-th declared field of the record type
has type `bool` and whose driver value is the integer `n`, no later column of
the result set carrying the same name: the loop body for that column binds the
column name to `n != 0`, false when `n = 0` and true otherwise; the mapping of
`Row` holds that binding once the row is decoded, and it is the mapping `Row`
hands to the projection when the row is the last one; the mapping `Query`
builds for the row holds that binding, and it is the entry for the row in what
`Query` hands to the projection. -/
theorem C9_bool_column_decodes_from_integer (fieldTypes : List GoType)
    (columNames : List String) (rowsList : List (List DriverValue)) (r : Nat)
    (row : List DriverValue) (i : Nat) (v : String) (n : Int)
    (hrow : rowsList[r]? = some row)
    (hcol : columNames[i]? = some v) (hfield : fieldTypes[i]? = some .bool)
    (hval : row[i]? = some (.int64 n))
    (hlast : ∀ j, i < j → columNames[j]? ≠ some v) :
    (∀ m0 : RowMap,
        decodeColumn fieldTypes row i v m0 = .ok (m0.set v (.truth (decide (n ≠ 0)))) ∧
          (m0.set v (.truth (decide (n ≠ 0)))).get? v = some (.truth (decide (n ≠ 0)))) ∧
      (∀ m1 : RowMap, rowLoop fieldTypes columNames (rowsList.take (r + 1)) [] = .ok m1 →
        m1.get? v = some (.truth (decide (n ≠ 0)))) ∧
      (∀ (db : DB) (project : RowMap → Option String) (q : String) (a : Nat) (nm : String)
          (fs : FieldValues) (params : List GoValue) (m1 : RowMap),
        fs.typesOf.toList = fieldTypes →
        db.query q params = .ok { columns := columNames, rows := rowsList } →
        r + 1 = rowsList.length →
        rowLoop fieldTypes columNames rowsList [] = .ok m1 →
        Row db project q (.ptr a (.struct nm fs)) params =
            { outcome := match project m1 with
                | some err => .error err
                | none => .ok (),
              queries := [(q, params)], result := m1 } ∧
          (Row db project q (.ptr a (.struct nm fs)) params).result.get? v =
            some (.truth (decide (n ≠ 0)))) ∧
      (∀ ms : List RowMap,
        queryLoop fieldTypes columNames (rowsList.take (r + 1)) [] = .ok ms →
        ∃ m, ms[r]? = some m ∧ m.get? v = some (.truth (decide (n ≠ 0)))) ∧
      (∀ (db : DB) (q : String) (a a2 : Nat) (nm : String) (fts : FieldTypes)
          (len : Option Nat) (params : List GoValue) (ms : List RowMap),
        fts.toList = fieldTypes →
        db.query q params = .ok { columns := columNames, rows := rowsList } →
        queryLoop fieldTypes columNames rowsList [] = .ok ms →
        Query db q (.ptr a (.ptr a2 (.slice (.struct nm fts) len))) params =
            { outcome := .ok (), queries := [(q, params)], result := ms } ∧
          ∃ m, (Query db q (.ptr a (.ptr a2 (.slice (.struct nm fts) len))) params).result[r]? =
              some m ∧
            m.get? v = some (.truth (decide (n ≠ 0)))) ∧
      (n = 0 → decide (n ≠ 0) = false) ∧ (n ≠ 0 → decide (n ≠ 0) = true) := by
  have hrowmap : ∀ m m1 : RowMap, decodeRow fieldTypes columNames row m = .ok m1 →
      m1.get? v = some (.truth (decide (n ≠ 0))) :=
    decodeRow_bool fieldTypes columNames row i v n hcol hfield hval hlast
  have hprefix : ∀ m1 : RowMap,
      rowLoop fieldTypes columNames (rowsList.take (r + 1)) [] = .ok m1 →
        m1.get? v = some (.truth (decide (n ≠ 0))) := by
    intro m1 h
    obtain ⟨m, hm⟩ := rowLoop_last fieldTypes columNames rowsList r row hrow [] m1 h
    exact hrowmap m m1 hm
  have hquery : ∀ (rws : List (List DriverValue)) (ms : List RowMap), rws[r]? = some row →
      queryLoop fieldTypes columNames rws [] = .ok ms →
        ∃ m, ms[r]? = some m ∧ m.get? v = some (.truth (decide (n ≠ 0))) := by
    intro rws ms hr h
    obtain ⟨tail, htail, hrows⟩ := queryLoop_ok fieldTypes columNames rws [] ms h
    obtain ⟨m, hm, hd⟩ := hrows r row hr
    refine ⟨m, ?_, hrowmap [] m hd⟩
    rw [htail]
    simpa using hm
  refine ⟨fun m0 => ⟨decodeColumn_bool fieldTypes row i v n m0 hfield hval,
    RowMap.get?_set_self m0 v _⟩, hprefix, ?_, ?_, ?_, by intro h; simp [h], by intro h; simp [h]⟩
  · intro db project q a nm fs params m1 hfts hq hlen hloop
    have hrun : Row db project q (.ptr a (.struct nm fs)) params =
        { outcome := match project m1 with
            | some err => .error err
            | none => .ok (),
          queries := [(q, params)], result := m1 } := by
      simp only [Row, ValueOf, notPtrToStruct, GoValue.Kind, GoValue.Elem, bne_self_eq_false,
        Bool.or_self, Bool.false_eq_true, if_false, hq, hfts, hloop]
      cases project m1 <;> rfl
    refine ⟨hrun, ?_⟩
    rw [hrun]
    have htake : rowsList.take (r + 1) = rowsList := List.take_of_length_le (by omega)
    exact hprefix m1 (by rw [htake]; exact hloop)
  · intro ms h
    exact hquery _ ms (by rw [List.getElem?_take_of_succ]; exact hrow) h
  · intro db q a a2 nm fts len params ms hfts hq hloop
    have hrun : Query db q (.ptr a (.ptr a2 (.slice (.struct nm fts) len))) params =
        { outcome := .ok (), queries := [(q, params)], result := ms } := by
      simp only [Query, ValueOf, GoValue.Kind, valueArrayOf, GoValue.Elem, GoValue.Interface,
        GoValue.typeOf, bne_self_eq_false, Bool.false_eq_true, if_false, hq, hfts, hloop]
    refine ⟨hrun, ?_⟩
    rw [hrun]
    exact hquery rowsList ms hrow hloop

/-- C9, amended, at the record type `Flagged { ID int64; Active bool }`, the
columns `id`, `active`, the row `5, 1` and the column `active`. -/
theorem C9_bool_column_decodes_from_integer_witness :
    ([[DriverValue.int64 5, DriverValue.int64 1]] : List (List DriverValue))[0]? =
        some [.int64 5, .int64 1] ∧
      (["id", "active"] : List String)[1]? = some "active" ∧
      flaggedType.toList[1]? = some .bool ∧
      ([DriverValue.int64 5, DriverValue.int64 1] : List DriverValue)[1]? = some (.int64 1) ∧
      (∀ j, 1 < j → (["id", "active"] : List String)[j]? ≠ some "active") ∧
      (Query flagStore "SELECT id, active FROM flagged"
            (.ptr 1 (.ptr 2 (.slice (.struct "Flagged" flaggedType) none))) [] =
          { outcome := .ok (), queries := [("SELECT id, active FROM flagged", [])],
            result := [[("active", .truth true), ("id", .slot (.int64 5))]] } ∧
        ∃ m, (Query flagStore "SELECT id, active FROM flagged"
              (.ptr 1 (.ptr 2 (.slice (.struct "Flagged" flaggedType) none))) []).result[0]? =
            some m ∧
          m.get? "active" = some (.truth (decide ((1 : Int) ≠ 0)))) ∧
      (Row flagStore (fun _ => none) "SELECT id, active FROM flagged"
            (.ptr 1 (.struct "Flagged"
              (.cons "ID" "id" (.int64 0) (.cons "Active" "active" (.bool false) .nil)))) [] =
          { outcome := .ok (), queries := [("SELECT id, active FROM flagged", [])],
            result := [("active", .truth true), ("id", .slot (.int64 5))] } ∧
        (Row flagStore (fun _ => none) "SELECT id, active FROM flagged"
            (.ptr 1 (.struct "Flagged"
              (.cons "ID" "id" (.int64 0) (.cons "Active" "active" (.bool false) .nil))))
            []).result.get? "active" = some (.truth (decide ((1 : Int) ≠ 0)))) :=
  have hlast : ∀ j, 1 < j → (["id", "active"] : List String)[j]? ≠ some "active" := by
    intro j hj
    have hnone : (["id", "active"] : List String)[j]? = none :=
      List.getElem?_eq_none (by simp; omega)
    rw [hnone]
    simp
  ⟨by decide, by decide, by decide, by decide, hlast,
    (C9_bool_column_decodes_from_integer flaggedType.toList ["id", "active"]
      [[.int64 5, .int64 1]] 0 [.int64 5, .int64 1] 1 "active" 1
      (by decide) (by decide) (by decide) (by decide) hlast).2.2.2.2.1
      flagStore "SELECT id, active FROM flagged" 1 2 "Flagged" flaggedType none []
      [[("active", .truth true), ("id", .slot (.int64 5))]] rfl rfl (by decide),
    (C9_bool_column_decodes_from_integer flaggedType.toList ["id", "active"]
      [[.int64 5, .int64 1]] 0 [.int64 5, .int64 1] 1 "active" 1
      (by decide) (by decide) (by decide) (by decide) hlast).2.2.1
      flagStore (fun _ => none) "SELECT id, active FROM flagged" 1 "Flagged"
      (.cons "ID" "id" (.int64 0) (.cons "Active" "active" (.bool false) .nil)) []
      [("active", .truth true), ("id", .slot (.int64 5))] (by decide) rfl (by decide)
      (by decide)⟩

end GoDb
